import Mathlib

/-!
Verification development for the xrpl-data-mcp server (src/server.js of the
repository, provided as src/unnamed/part_001).

The server is a JavaScript program.  This file gives a shallow embedding of
the pure core of the program: the JSON value model the handlers manipulate,
the body-parsing decision of fetchWithParse, the schema-tolerant numeric
field search pickFirstNumber together with the LOS freshness probe, the
currency normalizer currencyTo160Hex / tokenIdFromIssuerCurrency, the
per-tool derivations (ledger lag, VWAP, risk indicators, counterparty
aggregation, entity resolution), and the twelve composite tool handlers as
functions from the behaviour of their upstream calls to a single tool
outcome (an envelope or an error).

Network effects are modelled by passing each handler the results of its
upstream calls as explicit arguments: a mandatory call (one whose exception
would escape to the handler's top-level catch) is an `Except String Json`;
a soft call (tryLos, or an inline try/catch) is the already-absorbed value.
Machine numbers are modelled as rationals; where a JavaScript NaN can flow
through a computation the embedding uses `Option ℚ` with `none` for NaN and
notes it at the definition.
-/

namespace XrplMcp

/-- JSON-like runtime value as produced by JSON.parse and handled by the
server: null, booleans, numbers (modelled as exact rationals; IEEE-754
rounding is not modelled), strings, arrays, and objects with their fields in
insertion order. -/
inductive Json where
  | null
  | bool (b : Bool)
  | num (q : ℚ)
  | str (s : String)
  | arr (xs : List Json)
  | obj (fields : List (String × Json))

/-- Field lookup in an object field list (property access o[k]; JSON.parse
output has no duplicate keys, so first-match lookup is adequate). -/
def lookupField : List (String × Json) → String → Option Json
  | [], _ => none
  | (k, v) :: rest, key => if k = key then some v else lookupField rest key

/-- Property access value?.key; `none` plays the role of undefined. -/
def Json.get : Json → String → Option Json
  | .obj fs, k => lookupField fs k
  | _, _ => none

/-- JavaScript truthiness of a value. -/
def jsTruthy : Json → Bool
  | .null => false
  | .bool b => b
  | .num q => decide (q ≠ 0)
  | .str s => decide (s ≠ "")
  | .arr _ => true
  | .obj _ => true

/-- Truthiness of a possibly-undefined value. -/
def jsTruthyU : Option Json → Bool
  | none => false
  | some j => jsTruthy j

/-- Nullish coalescing a ?? b: undefined and null both fall through. -/
def nullishOr (a b : Option Json) : Option Json :=
  match a with
  | some .null => b
  | none => b
  | some j => some j

/-- Logical-or a || b on possibly-undefined values (truthiness selects). -/
def jsOrU (a b : Option Json) : Option Json :=
  if jsTruthyU a then a else b

mutual

/-- Structural equality test for values.  JavaScript === is reference
equality on objects and arrays; the handlers only compare strings and
numbers, for which structural equality coincides with ===. -/
def jsonBeq : Json → Json → Bool
  | .null, .null => true
  | .bool a, .bool b => a == b
  | .num a, .num b => a == b
  | .str a, .str b => a == b
  | .arr a, .arr b => jsonListBeq a b
  | .obj a, .obj b => jsonFieldsBeq a b
  | _, _ => false

/-- Elementwise equality of value lists (helper for `jsonBeq`). -/
def jsonListBeq : List Json → List Json → Bool
  | [], [] => true
  | a :: as', b :: bs' => jsonBeq a b && jsonListBeq as' bs'
  | _, _ => false

/-- Fieldwise equality of field lists (helper for `jsonBeq`). -/
def jsonFieldsBeq : List (String × Json) → List (String × Json) → Bool
  | [], [] => true
  | (ka, va) :: as', (kb, vb) :: bs' => ka == kb && jsonBeq va vb && jsonFieldsBeq as' bs'
  | _, _ => false

end

/-- Test whether a list of characters begins with a pattern. -/
def charsStart : List Char → List Char → Bool
  | _, [] => true
  | [], _ :: _ => false
  | c :: cs, d :: ds => c == d && charsStart cs ds

/-- Test whether a list of characters contains a pattern as a contiguous run. -/
def charsContain : List Char → List Char → Bool
  | [], pat => pat.isEmpty
  | c :: cs, pat => charsStart (c :: cs) pat || charsContain cs pat

/-- JavaScript String.prototype.startsWith. -/
def jsStartsWith (s pat : String) : Bool := charsStart s.toList pat.toList

/-- JavaScript String.prototype.includes. -/
def jsIncludes (s pat : String) : Bool := charsContain s.toList pat.toList

/-- Whitespace as stripped by String.prototype.trim.  The ASCII whitespace
characters are covered; further Unicode space characters that trim also
strips never occur in the inputs considered here. -/
def jsWS (c : Char) : Bool :=
  decide (c.toNat = 32 ∨ c.toNat = 9 ∨ c.toNat = 10 ∨ c.toNat = 13 ∨
    c.toNat = 11 ∨ c.toNat = 12)

/-- JavaScript String.prototype.trim. -/
def jsTrim (s : String) : String :=
  ⟨((s.toList.dropWhile jsWS).reverse.dropWhile jsWS).reverse⟩

/-- JavaScript String.prototype.toUpperCase.  Char.toUpper is ASCII-only;
the handlers upper-case only hexadecimal digits and alphanumeric codes, on
which the two agree. -/
def jsToUpper (s : String) : String := ⟨s.toList.map Char.toUpper⟩

/-- JavaScript String.prototype.toLowerCase (same ASCII caveat). -/
def jsToLower (s : String) : String := ⟨s.toList.map Char.toLower⟩

/-- Decimal digit test. -/
def isDigitChar (c : Char) : Bool := decide (48 ≤ c.toNat ∧ c.toNat ≤ 57)

/-- Value of a list of decimal digits. -/
def decVal (cs : List Char) : Nat := cs.foldl (fun acc c => acc * 10 + (c.toNat - 48)) 0

/-- Number(string): the decimal fragment of the JavaScript numeric grammar
(optional sign, integer part, optional fraction; empty and all-whitespace
strings coerce to 0).  Exponent, hexadecimal and Infinity forms are not
modelled; none of the payload fields the claims exercise use them.  `none`
plays the role of NaN. -/
def jsStrToNum (s : String) : Option ℚ :=
  match (jsTrim s).toList with
  | [] => some 0
  | cs =>
    let sg : ℚ := match cs with
      | '-' :: _ => -1
      | _ => 1
    let body : List Char := match cs with
      | '-' :: r => r
      | '+' :: r => r
      | r => r
    match body.span isDigitChar with
    | (ip, []) =>
      if ip.isEmpty then none else some (sg * decVal ip)
    | (ip, '.' :: fp) =>
      if fp.all isDigitChar && !(ip.isEmpty && fp.isEmpty) then
        some (sg * ((decVal ip : ℚ) + (decVal fp : ℚ) / ((10 : ℚ) ^ fp.length)))
      else none
    | _ => none

/-- Number(value) on a JSON value.  Number(null) is 0 and Number(true) is 1.
Arrays and objects coerce through their string rendering (Number([]) is 0,
Number([n]) is n, plain objects give NaN); the handlers never reach that
corner with an array, so arrays are conservatively mapped to NaN here and
the divergence is noted. -/
def jsToNum : Json → Option ℚ
  | .null => some 0
  | .bool b => some (if b then 1 else 0)
  | .num q => some q
  | .str s => jsStrToNum s
  | .arr _ => none
  | .obj _ => none

/-- Source toNum (part_001 lines 118-121): Number coercion guarded by
Number.isFinite, null on failure.  The argument is possibly undefined
(Number(undefined) is NaN, hence null). -/
def toNum : Option Json → Option ℚ
  | none => none
  | some j => jsToNum j

/-! ### fetchWithParse body handling (part_001 lines 55-87)

Only the body-handling step is pure: given the declared content type and
the raw body text, decide whether to run JSON.parse and what the resulting
body value is.  The parser itself is passed in as a function, standing for
JSON.parse. -/

/-- Outcome of the body-handling step of fetchWithParse: a successfully
parsed value, the null produced for an empty body under the parse
condition, or the raw text (returned both when no parse is attempted and
when the parse throws). -/
inductive BodyResult where
  | parsed (j : Json)
  | nullBody
  | raw (s : String)

/-- Condition of the parse branch (line 69):
contentType.includes("application/json") || bodyText.startsWith("\x7b") ||
bodyText.startsWith("["). -/
def fetchParseCond (contentType bodyText : String) : Bool :=
  jsIncludes contentType "application/json" ||
    jsStartsWith bodyText "\x7b" || jsStartsWith bodyText "["

/-- JSON.parse is invoked exactly when the parse branch is taken and the
body text is truthy (line 71: body = bodyText ? JSON.parse(bodyText) : null). -/
def attemptsJsonParse (contentType bodyText : String) : Bool :=
  fetchParseCond contentType bodyText && bodyText != ""

/-- Body handling of fetchWithParse (lines 66-75): under the parse
condition, an empty body becomes null, a parse failure falls back to the
raw text; outside the condition the raw text is kept. -/
def fetchBody (parseJson : String → Option Json) (contentType bodyText : String) :
    BodyResult :=
  if fetchParseCond contentType bodyText then
    if bodyText = "" then .nullBody
    else
      match parseJson bodyText with
      | some j => .parsed j
      | none => .raw bodyText
  else .raw bodyText

/-- Modelled from the spec: the parse-attempt condition as claim C4 words
it — the declared content type contains the substring json, or the raw
body text is non-empty and starts with a brace or a bracket. -/
def specParseCond (contentType bodyText : String) : Bool :=
  jsIncludes contentType "json" ||
    (bodyText != "" && (jsStartsWith bodyText "\x7b" || jsStartsWith bodyText "["))

/-! ### pickFirstNumber and the LOS freshness probe (part_001 lines 123-144
and 252-287) -/

/-- Key pass of pickFirstNumber (lines 127-134): walk the alias list in
order; a key present on the object whose value coerces to a finite number
wins.  On an array, the in-operator checks index keys and length, which
never match the non-numeric alias keys used by the probe, so the key pass
only applies to objects. -/
def keyPass (fs : List (String × Json)) : List String → Option ℚ
  | [] => none
  | k :: ks =>
    match lookupField fs k with
    | some v =>
      match jsToNum v with
      | some n => some n
      | none => keyPass fs ks
    | none => keyPass fs ks

mutual

/-- Source pickFirstNumber (lines 123-144): on a non-object value the
result is null; on an object the alias keys are tried in order first, and
then every nested object or array value is searched recursively, in field
order, the first hit winning.  The recursion is unbounded in depth. -/
def pickFirstNumber : Json → List String → Option ℚ
  | .obj fs, keys =>
    match keyPass fs keys with
    | some n => some n
    | none => pickNestedFields fs keys
  | .arr xs, keys => pickNestedElems xs keys
  | _, _ => none

/-- Nested pass over an object's values (lines 135-142); non-object values
are skipped, which coincides with pickFirstNumber returning null on them. -/
def pickNestedFields : List (String × Json) → List String → Option ℚ
  | [], _ => none
  | (_, v) :: rest, keys =>
    match pickFirstNumber v keys with
    | some n => some n
    | none => pickNestedFields rest keys

/-- Nested pass over an array's elements (Object.values of an array). -/
def pickNestedElems : List Json → List String → Option ℚ
  | [], _ => none
  | v :: rest, keys =>
    match pickFirstNumber v keys with
    | some n => some n
    | none => pickNestedElems rest keys

end

/-- Alias list for the latest-indexed-ledger field (lines 266-272). -/
def losFreshnessKeys : List String :=
  ["latestIndexedLedger", "latest_indexed_ledger", "indexed_ledger", "ledger_index", "ledger"]

/-- Candidate status paths probed in order (lines 253-259). -/
def losCandidatePaths : List String :=
  ["/ingestion-watermark", "/ingestion/status", "/status", "/health", "/meta"]

/-- Result shape of losFreshnessProbe. -/
structure ProbeResult where
  latestIndexedLedger : Option ℚ
  sourcePath : Option String
  raw : Option Json

/-- Iteration of losFreshnessProbe over the remaining candidate paths.  The
oracle `respond` gives tryLos's result per path: `none` for a swallowed
failure, otherwise the body (a falsy body is skipped by the !payload
check exactly like a failure). -/
def losFreshnessProbeGo (respond : String → Option Json) : List String → ProbeResult
  | [] => ⟨none, none, none⟩
  | path :: rest =>
    match respond path with
    | none => losFreshnessProbeGo respond rest
    | some payload =>
      if jsTruthy payload then
        match pickFirstNumber payload losFreshnessKeys with
        | some n => ⟨some n, some path, some payload⟩
        | none => losFreshnessProbeGo respond rest
      else losFreshnessProbeGo respond rest

/-- Source losFreshnessProbe (lines 252-287). -/
def losFreshnessProbe (respond : String → Option Json) : ProbeResult :=
  losFreshnessProbeGo respond losCandidatePaths

/-! ### Currency normalizer (part_001 lines 163-186) -/

/-- Hexadecimal digit test (the character class of /^[A-Fa-f0-9]{40}$/). -/
def isHexDigitChar (c : Char) : Bool :=
  decide ((48 ≤ c.toNat ∧ c.toNat ≤ 57) ∨ (65 ≤ c.toNat ∧ c.toNat ≤ 70) ∨
    (97 ≤ c.toNat ∧ c.toNat ≤ 102))

/-- Test for /^[A-Fa-f0-9]{40}$/. -/
def isHex40 (s : String) : Bool :=
  s.toList.length == 40 && s.toList.all isHexDigitChar

/-- Alphanumeric ASCII test (the character class of /^[A-Za-z0-9]{3}$/). -/
def isAlnumChar (c : Char) : Bool :=
  decide ((48 ≤ c.toNat ∧ c.toNat ≤ 57) ∨ (65 ≤ c.toNat ∧ c.toNat ≤ 90) ∨
    (97 ≤ c.toNat ∧ c.toNat ≤ 122))

/-- Test for /^[A-Za-z0-9]{3}$/. -/
def isAlnum3 (s : String) : Bool :=
  match s.toList with
  | [c1, c2, c3] => isAlnumChar c1 && isAlnumChar c2 && isAlnumChar c3
  | _ => false

/-- UTF-8 encoding of one code point, as a list of byte values.  The lead
byte of the four-byte form is masked to its three payload bits, which
agrees with UTF-8 on every valid code point and keeps all bytes below 256. -/
def utf8Enc (n : Nat) : List Nat :=
  if n < 128 then [n]
  else if n < 2048 then [192 + n / 64, 128 + n % 64]
  else if n < 65536 then [224 + n / 4096, 128 + (n / 64) % 64, 128 + n % 64]
  else [240 + (n / 262144) % 8, 128 + (n / 4096) % 64, 128 + (n / 64) % 64, 128 + n % 64]

/-- UTF-8 encoding of a character. -/
def utf8Char (c : Char) : List Nat := utf8Enc c.toNat

/-- Buffer.from(s, "utf8") as a list of byte values. -/
def utf8Bytes (s : String) : List Nat := (s.toList.map utf8Char).flatten

/-- Buffer.from(s, "ascii") in Node: each code unit masked to 7 bits. -/
def asciiBytes (s : String) : List Nat := s.toList.map (fun c => c.toNat % 128)

/-- Upper-case hexadecimal digit for a value below 16. -/
def hexDigitU (n : Nat) : Char :=
  if n < 10 then Char.ofNat (48 + n) else Char.ofNat (55 + n)

/-- Upper-case hexadecimal rendering of one byte. -/
def byteHexU (b : Nat) : List Char := [hexDigitU (b / 16), hexDigitU (b % 16)]

/-- Upper-case hexadecimal rendering of a byte list
(buffer.toString("hex").toUpperCase()). -/
def bytesToHexU (bs : List Nat) : String := ⟨(bs.map byteHexU).flatten⟩

/-- Value of a hexadecimal digit character, either case. -/
def hexVal? (c : Char) : Option Nat :=
  if 48 ≤ c.toNat ∧ c.toNat ≤ 57 then some (c.toNat - 48)
  else if 65 ≤ c.toNat ∧ c.toNat ≤ 70 then some (c.toNat - 55)
  else if 97 ≤ c.toNat ∧ c.toNat ≤ 102 then some (c.toNat - 87)
  else none

/-- Hex-decode a character list, two digits per byte. -/
def hexDecodeChars : List Char → Option (List Nat)
  | [] => some []
  | [_] => none
  | c1 :: c2 :: rest =>
    match hexVal? c1, hexVal? c2, hexDecodeChars rest with
    | some h, some l, some bs => some ((16 * h + l) :: bs)
    | _, _, _ => none

/-- Hex-decode a string into byte values (the round-trip direction the spec
speaks about; the server itself never decodes). -/
def hexDecode (s : String) : Option (List Nat) := hexDecodeChars s.toList

/-- The 34 zero digits appended after the 6 hex digits of an ISO-style
code ("0".repeat(34)). -/
def zeros34 : String := ⟨List.replicate 34 '0'⟩

/-- Source currencyTo160Hex (part_001 lines 163-177): an already-hex
40-digit code is upper-cased; an exactly-3-alphanumeric code is
upper-cased, ASCII-encoded and zero-padded; any other input is UTF-8
encoded and zero-padded to 20 bytes, failing (null) above 20 bytes. -/
def currencyTo160Hex (currency : String) : Option String :=
  let raw := jsTrim currency
  if isHex40 raw then some (jsToUpper raw)
  else if isAlnum3 raw then some (bytesToHexU (asciiBytes (jsToUpper raw)) ++ zeros34)
  else
    let bytes := utf8Bytes raw
    if bytes.length > 20 then none
    else some (bytesToHexU (bytes ++ List.replicate (20 - bytes.length) 0))

/-- Source tokenIdFromIssuerCurrency (lines 180-186): canonical LOS token
key currencyHex.issuer, null when the currency cannot be normalized. -/
def tokenIdFromIssuerCurrency (issuer currency : String) : Option String :=
  (currencyTo160Hex currency).map (fun currencyHex => currencyHex ++ "." ++ issuer)

/-! ### Shared numeric and rendering helpers used by the handlers -/

/-- String rendering of a value as used for template literals and object
keys.  The handlers only ever render strings (account addresses, currency
codes, transaction types); the renderings of the other shapes are
approximations of the JavaScript ToString (float formatting of fractional
numbers and array joining are not reproduced) and are unexercised. -/
def jsDisplay : Json → String
  | .null => "null"
  | .bool b => if b then "true" else "false"
  | .num q => if q.den = 1 then toString q.num else toString q
  | .str s => s
  | .arr _ => ""
  | .obj _ => "[object Object]"

/-- Addition with NaN propagation (`none` is NaN). -/
def nanAdd : Option ℚ → Option ℚ → Option ℚ
  | some a, some b => some (a + b)
  | _, _ => none

/-- Multiplication with NaN propagation.  JavaScript also maps 0 * Infinity
to NaN; infinities are not representable here. -/
def nanMul : Option ℚ → Option ℚ → Option ℚ
  | some a, some b => some (a * b)
  | _, _ => none

/-- Coercion Number(t[k] || 0) applied to a field of a row: an absent or
falsy field contributes 0, a truthy field goes through Number (possibly
NaN). -/
def coerceNumField (t : Json) (k : String) : Option ℚ :=
  match t.get k with
  | some v => if jsTruthy v then jsToNum v else some 0
  | none => some 0

/-- Coercion Number(r[k1] || r[k2] || 0) (validator report rows). -/
def coerceNumField2 (r : Json) (k1 k2 : String) : Option ℚ :=
  match jsOrU (jsOrU (r.get k1) (r.get k2)) (some (.num 0)) with
  | some v => jsToNum v
  | none => some 0

/-- A JavaScript expression that evaluates to null, to a finite number, or
to NaN (the three shapes the derived rate fields can take before
serialization; JSON.stringify renders NaN as null). -/
inductive JNum where
  | nullJ
  | numJ (q : ℚ)
  | nanJ

/-- Rendering of a derived rate into the envelope data (JSON.stringify
turns NaN into null). -/
def JNum.toJson : JNum → Json
  | .nullJ => .null
  | .numJ q => .num q
  | .nanJ => .null

/-- The rows array of a LOS /transactions payload:
Array.isArray(p?.transactions) ? p.transactions : [] (used with varying
fallbacks; this helper is the plain [] fallback). -/
def transactionsArray (p : Option Json) : List Json :=
  match p with
  | some j =>
    match j.get "transactions" with
    | some (.arr xs) => xs
    | _ => []
  | none => []

/-! ### network_overview ledger lag (part_001 lines 789-797) -/

/-- Source lag computation (lines 795-797): validatedLedgerIndex &&
losFreshness.latestIndexedLedger !== null ? difference : null.  The first
conjunct is a truthiness test, so a validated index of 0 (and NaN, not
representable here) selects the null branch just like a missing one. -/
def networkLedgerLag (validatedLedgerIndex latestIndexedLedger : Option ℚ) : Option ℚ :=
  match validatedLedgerIndex, latestIndexedLedger with
  | some v, some l => if v ≠ 0 then some (v - l) else none
  | _, _ => none

/-! ### market_snapshot VWAP (part_001 lines 1235-1241) -/

/-- Numerator sum of the VWAP (line 1236): Σ Number(t.price || 0) *
Number(t.amount || 0) over the trade sample, NaN-propagating. -/
def vwapNumerator (trades : List Json) : Option ℚ :=
  trades.foldl
    (fun s t => nanAdd s (nanMul (coerceNumField t "price") (coerceNumField t "amount")))
    (some 0)

/-- Denominator sum of the VWAP (line 1237): Σ Number(t.amount || 0). -/
def vwapDenominator (trades : List Json) : Option ℚ :=
  trades.foldl (fun s t => nanAdd s (coerceNumField t "amount")) (some 0)

/-- Source VWAP (line 1238): vwapDenominator > 0 ? numerator / denominator
: null.  A NaN denominator fails the comparison and yields null; a NaN
numerator over a positive denominator yields NaN. -/
def vwapOf (trades : List Json) : JNum :=
  match vwapDenominator trades with
  | none => .nullJ
  | some d =>
    if 0 < d then
      match vwapNumerator trades with
      | some n => .numJ (n / d)
      | none => .nanJ
    else .nullJ

/-! ### account_overview derivations (part_001 lines 1041-1084) -/

/-- Risk indicator message for a high trustline count (line 1074). -/
def riskTrustlineMsg : String := "High trustline count may indicate hub/exchange behavior."

/-- Risk indicator message for a high owner count (line 1077). -/
def riskOwnerMsg : String := "High owner count; reserve pressure likely high."

/-- Risk indicator message for non-zero account flags (line 1080). -/
def riskFlagsMsg : String := "Account has non-zero flags; inspect issuer permissions."

/-- Source risk indicator block (lines 1072-1081): three independent
appends, in source order.  ownerCount and flags are the already-coerced
values Number(accountData.OwnerCount || 0) and Number(accountData.Flags
|| 0); `none` is NaN (NaN > 1000 is false, NaN !== 0 is true). -/
def riskIndicators (trustlineCount : Nat) (ownerCount flags : Option ℚ) : List String :=
  (if 250 < trustlineCount then [riskTrustlineMsg] else []) ++
    (if (match ownerCount with | some oc => decide (1000 < oc) | none => false) then
      [riskOwnerMsg] else []) ++
    (if (match flags with | some f => decide (f ≠ 0) | none => true) then
      [riskFlagsMsg] else [])

/-- The transaction object of an account_tx row (line 1059):
row.tx_json || row.tx || \x7b\x7d. -/
def txObjOf (row : Json) : Json :=
  match jsOrU (jsOrU (row.get "tx_json") (row.get "tx")) (some (.obj [])) with
  | some j => j
  | none => .obj []

/-- The counterparty candidate of a row (line 1062): tx.Destination ||
tx.Account (undefined when both are absent or falsy). -/
def cpOf (row : Json) : Option Json :=
  jsOrU ((txObjOf row).get "Destination") ((txObjOf row).get "Account")

/-- Map.set-style counting on an association list: an existing key is
bumped in place, a new key appended (JavaScript Map preserves insertion
order). -/
def bumpKeyJ : List (Json × Nat) → Json → List (Json × Nat)
  | [], k => [(k, 1)]
  | (k0, n) :: rest, k =>
    if jsonBeq k0 k then (k0, n + 1) :: rest else (k0, n) :: bumpKeyJ rest k

/-- One step of the counterparty counting loop (lines 1062-1065): a row
contributes when its candidate is truthy and differs (strict inequality)
from the queried account. -/
def cpStep (account : String) (m : List (Json × Nat)) (row : Json) : List (Json × Nat) :=
  match cpOf row with
  | some cp =>
    if jsTruthy cp && !(jsonBeq cp (.str account)) then bumpKeyJ m cp else m
  | none => m

/-- Source counterparty counting loop (lines 1057-1066). -/
def counterpartiesMap (account : String) (txs : List Json) : List (Json × Nat) :=
  txs.foldl (cpStep account) []

/-- Stable descending insertion under a strict comparison (models
Array.prototype.sort with a b-minus-a comparator; ties keep their
relative order and a NaN comparison behaves as a tie). -/
def insertDescBy {α : Type} (gt : α → α → Bool) (e : α) : List α → List α
  | [] => [e]
  | f :: rest => if gt e f then e :: f :: rest else f :: insertDescBy gt e rest

/-- Sort by repeated descending insertion (same membership as the
JavaScript engine sort, which is all the development relies on). -/
def sortDescBy {α : Type} (gt : α → α → Bool) (l : List α) : List α :=
  l.foldr (insertDescBy gt) []

/-- Source recentCounterparties (lines 1067-1070): sort the map entries by
count descending, keep ten, render as address/interactions objects. -/
def recentCounterparties (account : String) (txs : List Json) : List Json :=
  ((sortDescBy (fun e f => decide (f.2 < e.2)) (counterpartiesMap account txs)).take 10).map
    (fun e => Json.obj [("address", e.1), ("interactions", .num e.2)])

/-- One mapped trustline row of topTokensByAbsBalance (lines 1046-1052). -/
structure TokenLine where
  currency : Option Json
  issuer : Option Json
  balance : Option ℚ
  absBalance : Option ℚ

/-- Rendering of a possibly-undefined field into envelope data.  An
undefined field is rendered as null; JSON.stringify instead drops the
field, a difference no claim observes. -/
def jv (o : Option Json) : Json := o.getD .null

/-- Rendering of a possibly-NaN number into envelope data (JSON.stringify
turns NaN into null). -/
def jn (o : Option ℚ) : Json :=
  match o with
  | some q => .num q
  | none => .null

/-- Source topTokensByAbsBalance (lines 1046-1054): map each trustline to
currency/issuer/balance/absBalance, sort by absBalance descending, keep
five. -/
def topTokensByAbsBalance (lines : List Json) : List TokenLine :=
  (sortDescBy
    (fun e f =>
      match e.absBalance, f.absBalance with
      | some x, some y => decide (y < x)
      | _, _ => false)
    (lines.map (fun line =>
      { currency := line.get "currency"
        issuer := line.get "account"
        balance := toNum (line.get "balance")
        absBalance := (toNum (line.get "balance")).map (fun q => |q|) }))).take 5

/-- Rendering of a TokenLine into envelope data. -/
def TokenLine.toJson (t : TokenLine) : Json :=
  .obj [("currency", jv t.currency), ("issuer", jv t.issuer),
        ("balance", jn t.balance), ("absBalance", jn t.absBalance)]

/-- Object-literal histogram counting (lines 1056-1061 and 1494-1498):
h[key] = (h[key] || 0) + 1 with string keys in first-insertion order. -/
def bumpKeyS : List (String × Nat) → String → List (String × Nat)
  | [], k => [(k, 1)]
  | (k0, n) :: rest, k =>
    if k0 = k then (k0, n + 1) :: rest else (k0, n) :: bumpKeyS rest k

/-- Source txTypeHistogram of account_overview (lines 1056-1061): key
tx.TransactionType || "Unknown" per row. -/
def txTypeHistogram (txs : List Json) : List (String × Nat) :=
  txs.foldl
    (fun h row =>
      bumpKeyS h
        (jsDisplay ((jsOrU ((txObjOf row).get "TransactionType")
          (some (.str "Unknown"))).getD (.str "Unknown"))))
    []

/-! ### resolve_entities classification (part_001 lines 1526-1561) -/

/-- Test for /^[A-Fa-f0-9]{64}$/. -/
def isHex64 (s : String) : Bool :=
  s.toList.length == 64 && s.toList.all isHexDigitChar

/-- The address alphabet [1-9A-HJ-NP-Za-km-z] (base58 without 0, I, O, l). -/
def isB58Char (c : Char) : Bool :=
  decide ((49 ≤ c.toNat ∧ c.toNat ≤ 57) ∨ (65 ≤ c.toNat ∧ c.toNat ≤ 72) ∨
    (74 ≤ c.toNat ∧ c.toNat ≤ 78) ∨ (80 ≤ c.toNat ∧ c.toNat ≤ 90) ∨
    (97 ≤ c.toNat ∧ c.toNat ≤ 107) ∨ (109 ≤ c.toNat ∧ c.toNat ≤ 122))

/-- Character-list form of /^r[1-9A-HJ-NP-Za-km-z]{24,34}$/. -/
def isAccountChars : List Char → Bool
  | 'r' :: rest =>
    decide (24 ≤ rest.length) && decide (rest.length ≤ 34) && rest.all isB58Char
  | _ => false

/-- Test for /^r[1-9A-HJ-NP-Za-km-z]{24,34}$/. -/
def isAccountStr (s : String) : Bool := isAccountChars s.toList

/-- Test for /^[A-Fa-f0-9]{40}\.r[1-9A-HJ-NP-Za-km-z]{24,34}$/. -/
def isTokenIdStr (s : String) : Bool :=
  let cs := s.toList
  (cs.take 40).length == 40 && (cs.take 40).all isHexDigitChar &&
    (match cs.drop 40 with
     | '.' :: rest => isAccountChars rest
     | _ => false)

/-- Test for /^[0-9]+$/. -/
def isDigitsOnly (s : String) : Bool :=
  !s.toList.isEmpty && s.toList.all isDigitChar

/-- Test for value.includes("."). -/
def hasPeriod (s : String) : Bool := s.toList.contains '.'

/-- The classified entity: its type tag, normalized value, and the
hard-coded follow-up tool suggestions pushed for it. -/
structure Resolved where
  entityType : String
  normalized : Json
  nextTools : List String

/-- Warning attached when no pattern matches (line 1560). -/
def unknownEntityWarning : String := "Input did not match known XRPL identifier patterns."

/-- Source classification chain of resolve_entities (lines 1529-1551):
first matching pattern wins.  The ledger-index conversion Number(value) is
modelled exactly (the IEEE-754 rounding of values beyond 2^53 is not). -/
def resolveEntity (input : String) : Resolved :=
  let v := jsTrim input
  if isHex64 v then ⟨"tx_hash", .str (jsToUpper v), ["tx_explain", "xrpl_tx"]⟩
  else if isAccountStr v then ⟨"account", .str v, ["account_overview", "xrpl_account_info"]⟩
  else if isTokenIdStr v then ⟨"token_id", .str (jsToUpper v), ["token_overview", "los_get_token"]⟩
  else if isDigitsOnly v then ⟨"ledger_index", .num (decVal v.toList), ["ledger_summary", "xrpl_ledger"]⟩
  else if hasPeriod v then ⟨"domain_or_host", .str (jsToLower v), ["xrplmeta_get", "validator_set_overview"]⟩
  else ⟨"unknown", .str v, []⟩

/-! ### tx_explain helpers (part_001 lines 206-235 and 915-1021) -/

/-- Optional chaining o?.k on a possibly-undefined value. -/
def optGet (o : Option Json) (k : String) : Option Json :=
  o.bind (fun j => j.get k)

/-- Logical-or a || b directly on values. -/
def jsOrJ (a b : Json) : Json := if jsTruthy a then a else b

/-- Set-style insertion for strings (JavaScript Set preserves insertion
order and ignores duplicates). -/
def addUniqueStr (l : List String) (s : String) : List String :=
  if l.contains s then l else l ++ [s]

/-- Set-style insertion for values. -/
def addUniqueJ (l : List Json) (j : Json) : List Json :=
  if l.any (jsonBeq j) then l else l ++ [j]

/-- Source addCurrency of extractTokensFromTx (lines 208-219): falsy
amounts are skipped, a string amount is the native asset, an object amount
contributes currency.issuer when both fields are truthy. -/
def addCurrencyTok (toks : List String) (amount : Option Json) : List String :=
  match amount with
  | none => toks
  | some j =>
    if !jsTruthy j then toks
    else
      match j with
      | .str _ => addUniqueStr toks "XRP"
      | _ =>
        if jsTruthyU (j.get "currency") && jsTruthyU (j.get "issuer") then
          addUniqueStr toks
            (jsDisplay ((j.get "currency").getD .null) ++ "." ++
              jsDisplay ((j.get "issuer").getD .null))
        else toks

/-- Mutation-record body of an affected node (lines 228 and 959):
node.ModifiedNode || node.CreatedNode || node.DeletedNode. -/
def nodeBody (node : Json) : Option Json :=
  jsOrU (jsOrU (node.get "ModifiedNode") (node.get "CreatedNode")) (node.get "DeletedNode")

/-- Field collection of a mutation record (body?.FinalFields || \x7b\x7d and
likewise NewFields). -/
def nodeFields (node : Json) (k : String) : Json :=
  match jsOrU (optGet (nodeBody node) k) (some (.obj [])) with
  | some j => j
  | none => .obj []

/-- The AffectedNodes array of a meta value (empty unless an array). -/
def affectedNodesOf (meta : Json) : List Json :=
  match meta.get "AffectedNodes" with
  | some (.arr xs) => xs
  | _ => []

/-- Source extractTokensFromTx (lines 206-235). -/
def extractTokensFromTx (tx meta : Json) : List String :=
  let t0 := addCurrencyTok [] (tx.get "Amount")
  let t1 := addCurrencyTok t0 (tx.get "TakerGets")
  let t2 := addCurrencyTok t1 (tx.get "TakerPays")
  let t3 := addCurrencyTok t2 (meta.get "delivered_amount")
  (affectedNodesOf meta).foldl
    (fun toks node =>
      addCurrencyTok (addCurrencyTok toks ((nodeFields node "FinalFields").get "Balance"))
        ((nodeFields node "NewFields").get "Balance"))
    t3

/-! ### validator_health derivations (part_001 lines 1400-1404) -/

/-- Array.prototype.slice(-n): the last n elements. -/
def lastN {α : Type} (n : Nat) (l : List α) : List α := l.drop (l.length - n)

/-- Source uptime score (line 1404): signed + missed > 0 ? signed /
(signed + missed) : null, with NaN failing the comparison. -/
def uptimeScore (signed missed : Option ℚ) : JNum :=
  match nanAdd signed missed with
  | some t =>
    if 0 < t then
      match signed with
      | some s => .numJ (s / t)
      | none => .nanJ
    else .nullJ
  | none => .nullJ

/-! ### Envelope and tool outcome (part_001 lines 90-161) -/

/-- One provenance record of an envelope. -/
structure SourceRec where
  system : String
  method : String
  atTime : String

/-- The composite-tool envelope (lines 146-157): data, provenance records,
freshness (ledger marker and wall-clock time) and warnings. -/
structure Envelope where
  data : Json
  sources : List SourceRec
  asOfLedger : Option ℚ
  asOfTime : String
  warnings : List String

/-- A composite handler's single result: exactly one envelope (toolResult
of an envelope) or exactly one error (toolError with the failure's
message). -/
inductive ToolOutcome where
  | ok (e : Envelope)
  | err (msg : String)

/-- Envelope construction (lines 147-161); the handlers below always pass
an explicit completion time. -/
def envelopeOf (now : String) (data : Json) (sources : List SourceRec)
    (asOfLedger : Option ℚ) (warnings : List String) : Envelope :=
  ⟨data, sources, asOfLedger, now, warnings⟩

/-- Source xrplResultEnvelope (lines 188-196): unwrap a JSON-RPC result
member when it is a non-null object, keep the payload when it is an
object without one, and collapse non-objects to an empty object. -/
def xrplResultEnvelope (payload : Json) : Json :=
  if !(match payload with | .obj _ => true | .arr _ => true | _ => false) then .obj []
  else
    match payload.get "result" with
    | some r =>
      if jsTruthy r && (match r with | .obj _ => true | .arr _ => true | _ => false) then r
      else payload
    | none => payload

/-- Source parseXrpDrops (lines 198-204): drops to XRP, null on NaN. -/
def parseXrpDrops (v : Option Json) : Option ℚ :=
  (toNum v).map (fun drops => drops / 1000000)

/-! ### Composite tool handlers

Each handler is embedded as a function from the results of its upstream
calls (in the order the source issues them) to one ToolOutcome.  Mandatory
calls — those whose exception would reach the handler's top-level catch —
appear as `Except String Json`; soft calls (tryLos, and the inline
try/catch around amm_info) appear with the failure already absorbed, as
the source absorbs them before the value is used.  Wall-clock time is the
`now` argument.  Arguments the source uses only to build the upstream
request (limits, sort orders, group/path fragments, identifiers echoed
into queries) are absorbed into the upstream-result arguments and do not
appear separately unless they also flow into the emitted data. -/

/-- Warning pushed by network_overview when the probe found nothing
(line 799). -/
def losProbeWarning : String :=
  "LOS ingestion watermark endpoint was not detected from known paths."

/-- Source network_overview handler (lines 778-838). -/
def networkOverview (now : String) (serverInfoCall : Except String Json)
    (probeRespond : String → Option Json) : ToolOutcome :=
  match serverInfoCall with
  | .error e => .err e
  | .ok serverInfoRaw =>
    let envR := xrplResultEnvelope serverInfoRaw
    let serverInfo : Json := (nullishOr (envR.get "info") (some envR)).getD envR
    let validatedLedger : Json :=
      (nullishOr (serverInfo.get "validated_ledger") (some (.obj []))).getD (.obj [])
    let validatedLedgerIndex : Option ℚ :=
      (toNum (validatedLedger.get "seq")).orElse (fun _ =>
        (toNum (validatedLedger.get "ledger_index")).orElse (fun _ =>
          toNum (validatedLedger.get "index")))
    let losFreshness := losFreshnessProbe probeRespond
    let lag := networkLedgerLag validatedLedgerIndex losFreshness.latestIndexedLedger
    let warnings :=
      if losFreshness.latestIndexedLedger = none then [losProbeWarning] else []
    .ok (envelopeOf now
      (.obj
        [("network",
          jv (nullishOr (serverInfo.get "network_id")
            (nullishOr (serverInfo.get "network") (some (.str "mainnet"))))),
         ("validatedLedgerIndex", jn validatedLedgerIndex),
         ("validatedLedgerCloseTime",
          jv (nullishOr (validatedLedger.get "close_time_human")
            (validatedLedger.get "close_time_iso"))),
         ("serverHealthSummary", .obj
           [("serverState", jv (serverInfo.get "server_state")),
            ("completeLedgers", jv (serverInfo.get "complete_ledgers")),
            ("loadFactor", jn (toNum (serverInfo.get "load_factor"))),
            ("peers", jn (toNum (serverInfo.get "peers"))),
            ("warnings", jv (nullishOr (serverInfo.get "warnings") (some (.arr []))))]),
         ("keyRates", .obj
           [("ledgerLagVsLos", jn lag),
            ("loadFactor", jn (toNum (serverInfo.get "load_factor"))),
            ("peers", jn (toNum (serverInfo.get "peers")))]),
         ("dataFreshness", .obj
           [("losLatestIndexedLedger", jn losFreshness.latestIndexedLedger),
            ("losSourcePath",
             match losFreshness.sourcePath with | some p => .str p | none => .null)])])
      [⟨"rippled", "server_info", now⟩, ⟨"LOS", "ingestion watermark probe", now⟩]
      validatedLedgerIndex
      warnings)

/-- Warning pushed by ledger_summary when no LOS artifact matched
(line 878). -/
def ledgerArtifactWarning : String :=
  "No LOS artifact endpoint matched /ledger/\x7bindex|hash\x7d."

/-- Source ledger_summary handler (lines 840-913).  The two tryLos probe
shapes are oracles keyed by the canonical index and by the hash. -/
def ledgerSummary (now : String) (ledger_hash : Option String)
    (ledgerCall : Except String Json)
    (losByIndex : ℚ → Option Json) (losByHash : String → Option Json) : ToolOutcome :=
  match ledgerCall with
  | .error e => .err e
  | .ok ledgerRaw =>
    let ledgerResult := xrplResultEnvelope ledgerRaw
    let ledger : Json :=
      (nullishOr (ledgerResult.get "ledger") (some (.obj []))).getD (.obj [])
    let canonicalIndex : Option ℚ :=
      (toNum (ledger.get "ledger_index")).orElse (fun _ =>
        (toNum (ledger.get "ledger_index_min")).orElse (fun _ =>
          toNum (ledgerResult.get "ledger_index")))
    let losArtifacts : Option Json :=
      match canonicalIndex with
      | some i => losByIndex i
      | none =>
        match ledger_hash with
        | some h => if h ≠ "" then losByHash h else none
        | none => none
    let warnings := if !(jsTruthyU losArtifacts) then [ledgerArtifactWarning] else []
    .ok (envelopeOf now
      (.obj
        [("ledgerIndex", jn canonicalIndex),
         ("ledgerHash",
          jv (nullishOr (ledger.get "ledger_hash")
            (nullishOr (ledger.get "hash")
              (match ledger_hash with | some h => some (.str h) | none => none)))),
         ("closeTime",
          jv (nullishOr (ledger.get "close_time_human")
            (nullishOr (ledger.get "close_time_iso")
              (ledgerResult.get "close_time_human")))),
         ("txCount",
          jn ((toNum (ledger.get "txn_count")).orElse (fun _ =>
            toNum (ledgerResult.get "txn_count")))),
         ("feeMetrics", .obj
           [("baseFeeXrp", jn (parseXrpDrops (ledger.get "base_fee"))),
            ("reserveBaseXrp", jn (parseXrpDrops (ledger.get "reserve_base"))),
            ("reserveIncrementXrp", jn (parseXrpDrops (ledger.get "reserve_inc")))]),
         ("representativeTxHashes",
          match ledger.get "transactions" with
          | some (.arr xs) => .arr (xs.take 5)
          | _ => .arr []),
         ("losArtifacts", jv losArtifacts)])
      [⟨"rippled", "ledger", now⟩, ⟨"LOS", "GET /ledger/\x7bindex|hash\x7d probe", now⟩]
      canonicalIndex
      warnings)

/-- Warning pushed by tx_explain when LOS had no enriched record
(line 977). -/
def txLosWarning : String :=
  "LOS enriched transaction record not found; classification is rippled-derived."

/-- LOS record selection of tx_explain (lines 925-928): when the response
carries a non-empty transactions array, its first element replaces the
response. -/
def losTxOf (losTxResp : Json) : Json :=
  match losTxResp.get "transactions" with
  | some (.arr (x :: _)) => x
  | _ => losTxResp

/-- Source tx_explain handler (lines 915-1021).  The tryLos result comes
first (null when the call failed), then the mandatory tx call. -/
def txExplain (now : String) (tx_hash : String) (losTxResp : Json)
    (txCall : Except String Json) : ToolOutcome :=
  let losTx := losTxOf losTxResp
  match txCall with
  | .error e => .err e
  | .ok txRaw =>
    let txResult := xrplResultEnvelope txRaw
    let tx : Json := (nullishOr (txResult.get "tx_json") (some txResult)).getD txResult
    let meta : Json :=
      (nullishOr (txResult.get "meta") (txResult.get "metaData")).getD .null
    let transactionType : Json := (tx.get "TransactionType").getD .null
    let isDexTrade :=
      jsonBeq transactionType (.str "OfferCreate") ||
        jsonBeq transactionType (.str "AMMSwap") ||
        jsonBeq transactionType (.str "OfferCancel")
    let isTransfer := jsonBeq transactionType (.str "Payment")
    let isAmmRelated := jsStartsWith (jsDisplay (jsOrJ transactionType (.str ""))) "AMM"
    let tokensInvolved := extractTokensFromTx tx meta
    let sender : Json := (tx.get "Account").getD .null
    let destination : Json := (tx.get "Destination").getD .null
    let explanation :=
      jsTrim ((jsDisplay (jsOrJ transactionType (.str "Transaction"))) ++ " by " ++
        (jsDisplay (jsOrJ sender (.str "unknown"))) ++ " " ++
        (if jsTruthy destination then "to " ++ jsDisplay destination else ""))
    let affectedAccounts :=
      let fromNodes :=
        (affectedNodesOf meta).foldl
          (fun acc node =>
            let acc1 :=
              if jsTruthyU ((nodeFields node "FinalFields").get "Account") then
                addUniqueJ acc (((nodeFields node "FinalFields").get "Account").getD .null)
              else acc
            if jsTruthyU ((nodeFields node "NewFields").get "Account") then
              addUniqueJ acc1 (((nodeFields node "NewFields").get "Account").getD .null)
            else acc1)
          []
      let withSender :=
        if jsTruthy sender then addUniqueJ fromNodes sender else fromNodes
      if jsTruthy destination then addUniqueJ withSender destination else withSender
    let warnings := if !(jsTruthy losTx) then [txLosWarning] else []
    .ok (envelopeOf now
      (.obj
        [("txHash", .str tx_hash),
         ("canonical", .obj [("tx", tx), ("meta", meta)]),
         ("classification", .obj
           [("isDexTrade", .bool isDexTrade),
            ("isTransfer", .bool isTransfer),
            ("isAmmRelated", .bool isAmmRelated),
            ("tokensInvolved", .arr (tokensInvolved.map .str)),
            ("losFlags", jv (losTx.get "flags"))]),
         ("humanExplanation", .obj
           [("summary", .str explanation),
            ("amounts", .obj
              [("in", jv (nullishOr (tx.get "SendMax") (tx.get "Amount"))),
               ("out",
                jv (nullishOr (meta.get "delivered_amount")
                  (nullishOr (tx.get "DeliverMax") (tx.get "Amount"))))]),
            ("parties", .obj [("sender", sender), ("destination", destination)])]),
         ("relatedObjects", .obj
           [("affectedAccounts", .arr affectedAccounts),
            ("tokens", .arr (tokensInvolved.map .str)),
            ("amm", jv (losTx.get "amm")),
            ("offers", jv (losTx.get "offers"))]),
         ("losEnrichment", losTx)])
      [⟨"LOS", "GET /transactions", now⟩, ⟨"rippled", "tx", now⟩]
      (toNum (txResult.get "ledger_index"))
      warnings)

/-- Source account_overview handler (lines 1023-1118).  The three
mandatory rippled calls appear in source order. -/
def accountOverview (now : String) (account : String)
    (infoCall linesCall txCall : Except String Json) : ToolOutcome :=
  match infoCall with
  | .error e => .err e
  | .ok infoRaw =>
    match linesCall with
    | .error e => .err e
    | .ok linesRaw =>
      match txCall with
      | .error e => .err e
      | .ok txRaw =>
        let accountData : Json :=
          (nullishOr ((xrplResultEnvelope infoRaw).get "account_data")
            (some (.obj []))).getD (.obj [])
        let lines : Json :=
          (nullishOr ((xrplResultEnvelope linesRaw).get "lines")
            (some (.arr []))).getD (.arr [])
        let txs : List Json :=
          match (nullishOr ((xrplResultEnvelope txRaw).get "transactions")
            (some (.arr []))).getD (.arr []) with
          | .arr xs => xs
          | _ => []
        let linesArr : List Json := match lines with | .arr xs => xs | _ => []
        let trustlineCount : Nat := linesArr.length
        let topTokens := topTokensByAbsBalance linesArr
        let hist := txTypeHistogram txs
        let recentCps := recentCounterparties account txs
        let ownerCountQ := toNum (jsOrU (accountData.get "OwnerCount") (some (.num 0)))
        let flagsQ := toNum (jsOrU (accountData.get "Flags") (some (.num 0)))
        let risks := riskIndicators trustlineCount ownerCountQ flagsQ
        let reserveEstimateXrp := nanAdd (some 1) (nanMul ownerCountQ (some (1 / 5)))
        .ok (envelopeOf now
          (.obj
            [("account", .str account),
             ("xrpBalance", jn (parseXrpDrops (accountData.get "Balance"))),
             ("ownerCount", jn ownerCountQ),
             ("reserveEstimateXrp", jn reserveEstimateXrp),
             ("flags", jv (nullishOr (accountData.get "Flags") (some (.num 0)))),
             ("trustlines", .obj
               [("count", .num trustlineCount),
                ("topTokensByBalance", .arr (topTokens.map TokenLine.toJson))]),
             ("recentActivity", .obj
               [("txTypeHistogram", .obj (hist.map (fun e => (e.1, Json.num e.2)))),
                ("recentCounterparties", .arr recentCps)]),
             ("riskIndicators", .arr (risks.map .str))])
          [⟨"rippled", "account_info", now⟩, ⟨"rippled", "account_lines", now⟩,
           ⟨"rippled", "account_tx", now⟩]
          (toNum ((xrplResultEnvelope infoRaw).get "ledger_current_index"))
          [])

/-- Error message for an unnormalizable currency (line 1134). -/
def tokenNormalizeError : String := "Unable to normalize currency to XRPL 160-bit code."

/-- Warning pushed by token_overview when LOS had no token metadata
(line 1164). -/
def tokenMetaWarning : String := "LOS token metadata not found for normalized tokenID."

/-- Source token_overview handler (lines 1120-1201).  tokenMetaResp and
tokenTxResp are tryLos results (null on failure); the book_offers call is
mandatory; the amm_info call is wrapped in an inline try/catch, so its
failure is absorbed to null. -/
def tokenOverview (now : String) (issuer currency : String)
    (tokenMetaResp tokenTxResp : Json) (bookCall : Except String Json)
    (ammCall : Except String Json) : ToolOutcome :=
  match tokenIdFromIssuerCurrency issuer currency with
  | none => .err tokenNormalizeError
  | some tokenID =>
    match bookCall with
    | .error e => .err e
    | .ok book =>
      let amm : Json := match ammCall with | .ok j => j | .error _ => .null
      let offers : Json :=
        (nullishOr ((xrplResultEnvelope book).get "offers") (some (.arr []))).getD (.arr [])
      let bestAsk : Json := match offers with | .arr (x :: _) => x | _ => .null
      let warnings := if !(jsTruthy tokenMetaResp) then [tokenMetaWarning] else []
      .ok (envelopeOf now
        (.obj
          [("token", .obj
             [("issuer", .str issuer), ("currency", .str currency),
              ("tokenID", .str tokenID)]),
           ("metadata",
            jv (nullishOr (tokenMetaResp.get "metadata") (some tokenMetaResp))),
           ("trustlineAndHolderStats",
            jv (nullishOr (tokenMetaResp.get "holderStats") (tokenMetaResp.get "holders"))),
           ("liquiditySummary", .obj
             [("orderbookBestAsk", bestAsk),
              ("amm",
               jv (nullishOr ((xrplResultEnvelope amm).get "amm")
                 (some (xrplResultEnvelope amm))))]),
           ("recentActivity", .obj
             [("transferSampleSize",
               match tokenTxResp.get "transactions" with
               | some (.arr xs) => .num xs.length
               | _ => .null),
              ("sample",
               match tokenTxResp.get "transactions" with
               | some (.arr xs) => .arr (xs.take 10)
               | _ => tokenTxResp)])])
        [⟨"LOS", "GET /tokens/\x7btokenID\x7d", now⟩, ⟨"LOS", "GET /transactions", now⟩,
         ⟨"rippled", "book_offers", now⟩, ⟨"rippled", "amm_info", now⟩]
        (toNum ((xrplResultEnvelope book).get "ledger_index"))
        warnings)

/-- Warning pushed by market_snapshot on an empty trade sample
(line 1241). -/
def noTradesWarning : String := "No LOS trade samples returned for VWAP estimate."

/-- Spread/mid proxy of market_snapshot (lines 1248-1249): best?.quality ?
Number(best.quality) : null. -/
def qualityProxy (best : Json) : Json :=
  if jsTruthyU (best.get "quality") then jn (toNum (best.get "quality")) else .null

/-- Source market_snapshot handler (lines 1203-1275).  The book_offers
call is mandatory; amm_info is inline-caught; the LOS trades call is a
tryLos. -/
def marketSnapshot (now : String) (options : Json)
    (bookCall : Except String Json) (ammCall : Except String Json)
    (losTradesResp : Json) : ToolOutcome :=
  match bookCall with
  | .error e => .err e
  | .ok bookRaw =>
    let ammRaw : Json := match ammCall with | .ok j => j | .error _ => .null
    let bookResult := xrplResultEnvelope bookRaw
    let offers : Json :=
      (nullishOr (bookResult.get "offers") (some (.arr []))).getD (.arr [])
    let offersArr : List Json := match offers with | .arr xs => xs | _ => []
    let best : Json := match offers with | .arr (x :: _) => x | _ => .null
    let recentTrades : List Json :=
      match losTradesResp.get "transactions" with
      | some (.arr xs) => xs
      | _ => []
    let window :=
      jsDisplay ((jsOrU (options.get "window") (some (.str "1h"))).getD (.str "1h"))
    let warnings := if recentTrades.isEmpty then [noTradesWarning] else []
    .ok (envelopeOf now
      (.obj
        [("orderbook", .obj
           [("bestBidAskProxy", best),
            ("spread", qualityProxy best),
            ("mid", qualityProxy best),
            ("offerCount", .num offersArr.length)]),
         ("amm",
          jv (nullishOr ((xrplResultEnvelope ammRaw).get "amm")
            (some (xrplResultEnvelope ammRaw)))),
         ("recentTrades", .obj
           [("window", .str window),
            ("count", .num recentTrades.length),
            ("vwap", (vwapOf recentTrades).toJson),
            ("sample", .arr (recentTrades.take 20))])])
      [⟨"rippled", "book_offers", now⟩, ⟨"rippled", "amm_info", now⟩,
       ⟨"LOS", "GET /transactions?transactionType=dex-trade", now⟩]
      (toNum (bookResult.get "ledger_index"))
      warnings)

/-- Source amm_overview handler (lines 1277-1337).  Here the amm_info call
is mandatory (no inline catch); the LOS swaps call is a tryLos. -/
def ammOverview (now : String) (ammCall : Except String Json)
    (losSwapsResp : Json) : ToolOutcome :=
  match ammCall with
  | .error e => .err e
  | .ok ammRaw =>
    let amm : Json :=
      (nullishOr ((xrplResultEnvelope ammRaw).get "amm")
        (some (xrplResultEnvelope ammRaw))).getD (xrplResultEnvelope ammRaw)
    let swaps : List Json :=
      match losSwapsResp.get "transactions" with
      | some (.arr xs) => xs
      | _ => []
    let volume : Option ℚ :=
      swaps.foldl (fun s row => nanAdd s ((coerceNumField row "amount").map (fun q => |q|)))
        (some 0)
    .ok (envelopeOf now
      (.obj
        [("amm", amm),
         ("recentSwaps", .obj
           [("count", .num swaps.length),
            ("volume", jn volume),
            ("sample", .arr (swaps.take 20))]),
         ("priceImpactHooks", .obj
           [("note", .str "Use reserves plus candidate trade size to estimate slippage.")])])
      [⟨"rippled", "amm_info", now⟩,
       ⟨"LOS", "GET /transactions?transactionType=dex-trade", now⟩]
      (toNum ((xrplResultEnvelope ammRaw).get "ledger_index"))
      [])

/-- Source validator_set_overview handler (lines 1339-1381).  Its single
fetch is mandatory. -/
def validatorSetOverview (now : String) (validatorsCall : Except String Json) : ToolOutcome :=
  match validatorsCall with
  | .error e => .err e
  | .ok validatorsRaw =>
    let list : List Json :=
      match validatorsRaw.get "validators" with
      | some (.arr xs) => xs
      | _ => match validatorsRaw with | .arr xs => xs | _ => []
    let byOperator : List (String × Nat) :=
      list.foldl
        (fun h v =>
          bumpKeyS h
            (jsDisplay ((jsOrU (jsOrU (jsOrU (v.get "domain") (v.get "operator"))
              (v.get "owner")) (some (.str "unknown"))).getD (.str "unknown"))))
        []
    .ok (envelopeOf now
      (.obj
        [("validatorCount", .num list.length),
         ("byOperator", .obj (byOperator.map (fun e => (e.1, Json.num e.2)))),
         ("currentSet", .arr (list.take 200)),
         ("notableEvents", .obj
           [("note", .str "Use repeated snapshots of this tool for 7/30/90 day diffing.")])])
      [⟨"VHS", "GET /v1/network/validators", now⟩]
      none
      [])

/-- Warning pushed by validator_health on an empty report history
(line 1407). -/
def emptyReportsWarning : String := "Validator report history is empty for this key."

/-- Source validator_health handler (lines 1383-1434).  Both fetches are
mandatory, in source order. -/
def validatorHealth (now : String) (window : Option String)
    (validatorCall reportsCall : Except String Json) : ToolOutcome :=
  match validatorCall with
  | .error e => .err e
  | .ok validator =>
    match reportsCall with
    | .error e => .err e
    | .ok reports =>
      let reportList : List Json :=
        match reports.get "reports" with
        | some (.arr xs) => xs
        | _ => match reports with | .arr xs => xs | _ => []
      let recent := lastN 30 reportList
      let signed : Option ℚ :=
        recent.foldl (fun s r => nanAdd s (coerceNumField2 r "signed" "validations_signed"))
          (some 0)
      let missed : Option ℚ :=
        recent.foldl (fun s r => nanAdd s (coerceNumField2 r "missed" "validations_missed"))
          (some 0)
      let warnings := if reportList.isEmpty then [emptyReportsWarning] else []
      .ok (envelopeOf now
        (.obj
          [("validator", validator),
           ("window",
            .str (match window with
              | some w => if w ≠ "" then w else "last-30-reports"
              | none => "last-30-reports")),
           ("metrics", .obj
             [("validationsSigned", jn signed),
              ("validationsMissed", jn missed),
              ("uptimeScore", (uptimeScore signed missed).toJson)]),
           ("recentReports", .arr recent)])
        [⟨"VHS", "GET /v1/network/validator/\x7bpubkey\x7d", now⟩,
         ⟨"VHS", "GET /v1/network/validator/\x7bpubkey\x7d/reports", now⟩]
        none
        warnings)

/-- Truthiness of the optional network argument of amendment_status
(line 1447: network ? fetch : null). -/
def netGiven : Option String → Bool
  | some s => s != ""
  | none => false

/-- Source amendment_status handler (lines 1436-1474).  The votes fetch
happens only when a truthy network argument was supplied, and is then
mandatory; vhInfo and server_info are always mandatory, in source order. -/
def amendmentStatus (now : String) (network : Option String)
    (vhInfoCall votesCall serverInfoCall : Except String Json) : ToolOutcome :=
  match vhInfoCall with
  | .error e => .err e
  | .ok vhInfo =>
    match (if netGiven network then votesCall.map some else .ok none :
        Except String (Option Json)) with
    | .error e => .err e
    | .ok votes =>
      match serverInfoCall with
      | .error e => .err e
      | .ok serverInfo =>
        .ok (envelopeOf now
          (.obj
            [("enabledAmendments",
              jv (nullishOr (vhInfo.get "enabled")
                (nullishOr (vhInfo.get "amendments") (some vhInfo)))),
             ("votingStatus", jv votes),
             ("networkContext", .obj
               [("requested",
                 match network with | some s => .str s | none => .null),
                ("rippledNetwork",
                 jv (optGet ((xrplResultEnvelope serverInfo).get "info") "network_id"))])])
          [⟨"VHS", "GET /v1/network/amendments/info", now⟩,
           ⟨"rippled", "server_info", now⟩]
          none
          [])

/-- Source search_transactions handler (lines 1476-1518).  The single LOS
call (callLos, not tryLos) is mandatory. -/
def searchTransactions (now : String) (losCall : Except String Json) : ToolOutcome :=
  match losCall with
  | .error e => .err e
  | .ok payload =>
    let rows : List Json :=
      match payload.get "transactions" with
      | some (.arr xs) => xs
      | _ => match payload with | .arr xs => xs | _ => []
    let txTypes : List (String × Nat) :=
      rows.foldl
        (fun h row =>
          bumpKeyS h
            (jsDisplay ((jsOrU (jsOrU (jsOrU (row.get "transactionType") (row.get "type"))
              (row.get "tx_type")) (some (.str "unknown"))).getD (.str "unknown"))))
        []
    let totalAmount : Option ℚ :=
      rows.foldl (fun s row => nanAdd s (coerceNumField row "amount")) (some 0)
    .ok (envelopeOf now
      (.obj
        [("results", .arr rows),
         ("cursor", jv (nullishOr (payload.get "marker") (payload.get "next"))),
         ("aggregates", .obj
           [("count", .num rows.length),
            ("txTypeHistogram", .obj (txTypes.map (fun e => (e.1, Json.num e.2)))),
            ("totalAmount", jn totalAmount)])])
      [⟨"LOS", "GET /transactions", now⟩]
      none
      [])

/-- Source resolve_entities handler (lines 1520-1566): pure classification,
always an envelope. -/
def resolveEntitiesHandler (now : String) (input : String) : ToolOutcome :=
  let r := resolveEntity input
  .ok (envelopeOf now
    (.obj
      [("entity", .obj [("type", .str r.entityType), ("normalized", r.normalized)]),
       ("nextTools", .arr (r.nextTools.map .str))])
    [⟨"local-resolver", "pattern-match", now⟩]
    none
    (if r.entityType = "unknown" then [unknownEntityWarning] else []))

/-! ### Auxiliary definitions for the theorems -/

/-- A chain of single-field wrapper objects around a value (used to place a
payload field at an arbitrary nesting depth). -/
def wrapObj : List String → Json → Json
  | [], j => j
  | w :: ws, j => .obj [(w, wrapObj ws j)]

/-! ## Theorems

General helper lemmas first, then one theorem per claim (with its witness
or counterexample where required). -/

/-- Char.ofNat inverts Char.toNat on the ASCII range. -/
theorem char_ofNat_toNat (c : Char) (h : c.toNat < 128) : Char.ofNat c.toNat = c := by
  have hv : c.val.isValidChar := c.valid
  simp [Char.ofNat]
  split
  · apply Char.ext
    apply UInt32.ext
    simp [Char.ofNatAux, Char.toNat, UInt32.toNat]
  · rename_i hn
    exfalso
    apply hn
    left
    omega

/-- Lift a decidable ASCII-character fact proved by enumeration to every
character below 128. -/
theorem asciiLift (P : Char → Prop) [DecidablePred P]
    (hall : ∀ n : Fin 128, P (Char.ofNat n.val)) :
    ∀ c : Char, c.toNat < 128 → P c := by
  intro c h
  have := hall ⟨c.toNat, h⟩
  rwa [char_ofNat_toNat c h] at this

/-- Alphanumeric characters are ASCII. -/
theorem alnum_lt128 (c : Char) (h : isAlnumChar c = true) : c.toNat < 128 := by
  simp [isAlnumChar] at h
  omega

/-- Alphanumeric characters are not trim-whitespace. -/
theorem alnum_not_ws (c : Char) (h : isAlnumChar c = true) : jsWS c = false := by
  simp [isAlnumChar] at h
  simp [jsWS]
  omega

/-- Char.toUpper preserves alphanumeric characters. -/
theorem toUpper_alnum (c : Char) (h : isAlnumChar c = true) :
    isAlnumChar c.toUpper = true :=
  asciiLift (fun c => isAlnumChar c = true → isAlnumChar c.toUpper = true)
    (by decide) c (alnum_lt128 c h) h

/-- Char.toUpper is idempotent on alphanumeric characters. -/
theorem toUpper_idem (c : Char) (h : isAlnumChar c = true) :
    c.toUpper.toUpper = c.toUpper :=
  asciiLift (fun c => isAlnumChar c = true → c.toUpper.toUpper = c.toUpper)
    (by decide) c (alnum_lt128 c h) h

/-- A string is its character list repackaged. -/
theorem string_mk_toList (s : String) : String.mk s.toList = s := rfl

/-- jsTrim is the identity on three-character alphanumeric strings. -/
theorem jsTrim_alnum3 (s : String) (h : isAlnum3 s = true) : jsTrim s = s := by
  unfold isAlnum3 at h
  unfold jsTrim
  cases hs : s.toList with
  | nil => rw [hs] at h; simp at h
  | cons c1 rest =>
    rw [hs] at h
    match rest, h with
    | [c2, c3], h =>
      simp only [Bool.and_eq_true] at h
      obtain ⟨⟨h1, h2⟩, h3⟩ := h
      simp [List.dropWhile, alnum_not_ws c1 h1, alnum_not_ws c3 h3]
      conv_rhs => rw [← string_mk_toList s]
      rw [hs]

/-! ### Claim C2: the network_overview ledger lag -/

/-- Claim C2 counterexample: the claim asserts that for every pair of known
integer operands — including a validated ledger index of 0 — the lag field
is the exact difference.  The source guards the computation with the
truthiness test `validatedLedgerIndex && ...`, so a validated index of 0
yields null instead of 0 - latest.  The first conjunct exhibits this on the
cited derivation; the second runs the whole network_overview handler on a
server_info payload whose validated seq is 0 while the probe reports ledger
5, and the emitted keyRates.ledgerLagVsLos field is null. -/
theorem networkLedgerLag_zero_counterexample :
    networkLedgerLag (some 0) (some 5) = none ∧
      (match networkOverview "T"
          (.ok (.obj [("result", .obj [("info", .obj [("validated_ledger",
            .obj [("seq", .num 0)])])])]))
          (fun p => if p = "/ingestion-watermark" then
            some (.obj [("latestIndexedLedger", .num 5)]) else none) with
        | .ok e => optGet (e.data.get "keyRates") "ledgerLagVsLos"
        | .err _ => none) = some .null := by
  constructor
  · decide
  · rfl

/-- Claim C2 as amended: keyRates.ledgerLagVsLos is the exact difference
validatedLedgerIndex - latestIndexedLedger whenever both operands are known
and the validated index is non-zero; it is absent whenever either operand
is unavailable, and also when the validated ledger index is 0 (which the
source's truthiness test conflates with unavailability). -/
theorem networkLedgerLag_spec (v l : Option ℚ) :
    (∀ x y, v = some x → l = some y → x ≠ 0 → networkLedgerLag v l = some (x - y)) ∧
      (v = none → networkLedgerLag v l = none) ∧
      (l = none → networkLedgerLag v l = none) ∧
      (v = some 0 → networkLedgerLag v l = none) := by
  refine ⟨?_, ?_, ?_, ?_⟩
  · rintro x y rfl rfl hx
    simp [networkLedgerLag, hx]
  · rintro rfl
    simp [networkLedgerLag]
  · rintro rfl
    cases v <;> simp [networkLedgerLag]
  · rintro rfl
    cases l <;> simp [networkLedgerLag]

/-- Witness for the amended C2 theorem at concrete operands 7 and 4. -/
theorem networkLedgerLag_spec_witness :
    networkLedgerLag (some 7) (some 4) = some 3 := by
  have h := (networkLedgerLag_spec (some 7) (some 4)).1 7 4 rfl rfl (by norm_num)
  norm_num at h
  exact h

/-! ### Claim C3: depth of the freshness-probe field search -/

/-- Claim C3 counterexample: the claim asserts a numeric alias field nested
two or more levels below the top is never the returned value.  In the
payload below the only alias field sits two levels below the top, and
pickFirstNumber returns it: the source function recurses without a depth
bound. -/
theorem pickFirstNumber_depth_counterexample :
    pickFirstNumber
      (.obj [("a", .obj [("b", .obj [("ledger_index", .num 7)])])])
      losFreshnessKeys = some 7 := rfl

/-- keyPass finds a key of the alias list whose value is numeric. -/
theorem keyPass_single_hit (k : String) (n : ℚ) (keys : List String)
    (hk : k ∈ keys) : keyPass [(k, .num n)] keys = some n := by
  induction keys with
  | nil => cases hk
  | cons k0 ks ih =>
    unfold keyPass
    rcases List.mem_cons.mp hk with h0 | hmem
    · subst h0
      simp [lookupField, jsToNum]
    · by_cases he : k = k0
      · subst he
        simp [lookupField, jsToNum]
      · simp [lookupField, he]
        exact ih hmem

/-- keyPass never fires on a single field holding a non-numeric value. -/
theorem keyPass_single_miss (w : String) (v : Json) (keys : List String)
    (hv : jsToNum v = none) : keyPass [(w, v)] keys = none := by
  induction keys with
  | nil => rfl
  | cons k0 ks ih =>
    unfold keyPass
    by_cases he : w = k0
    · subst he
      simp [lookupField, hv]
      exact ih
    · simp [lookupField, he]
      exact ih

/-- wrapObj of an object is an object, hence non-numeric. -/
theorem jsToNum_wrapObj (ws : List String) (fs : List (String × Json)) :
    jsToNum (wrapObj ws (.obj fs)) = none := by
  cases ws <;> rfl

/-- Claim C3 as amended: the alias-field search of the freshness probe
recurses into nested objects without any depth bound.  For every chain of
wrapper objects, however deep, and every alias key of the fixed list, the
search returns the numeric field found under that key at the bottom of the
chain; a field two or more levels below the top can therefore be the
returned value (the depth-one bound the claim states does not hold). -/
theorem pickFirstNumber_unbounded_depth (ws : List String) (k : String) (n : ℚ)
    (hk : k ∈ losFreshnessKeys) :
    pickFirstNumber (wrapObj ws (.obj [(k, .num n)])) losFreshnessKeys = some n := by
  induction ws with
  | nil =>
    unfold wrapObj pickFirstNumber
    rw [keyPass_single_hit k n losFreshnessKeys hk]
  | cons w ws ih =>
    unfold wrapObj pickFirstNumber
    rw [keyPass_single_miss w _ losFreshnessKeys (jsToNum_wrapObj ws _)]
    unfold pickNestedFields
    rw [ih]

/-- Witness for the amended C3 theorem: a field three levels down under the
alias key ledger is found. -/
theorem pickFirstNumber_unbounded_depth_witness :
    pickFirstNumber (wrapObj ["x", "y", "z"] (.obj [("ledger", .num 3)]))
      losFreshnessKeys = some 3 :=
  pickFirstNumber_unbounded_depth ["x", "y", "z"] "ledger" 3 (by decide)

/-! ### Claim C4: the fetchWithParse parse condition -/

/-- Claim C4 counterexample: the claim asserts a parse is attempted when
the content type contains the substring json.  The source tests for the
substring application/json, so a body of declared type text/json that does
not start with a brace or bracket is returned as raw text, unparsed, even
though the claim's condition holds for it. -/
theorem fetchBody_json_substring_counterexample :
    specParseCond "text/json" "123" = true ∧
      attemptsJsonParse "text/json" "123" = false ∧
      fetchBody (fun _ => some (.num 123)) "text/json" "123" = .raw "123" := by
  refine ⟨by decide, by decide, rfl⟩

/-- Claim C4 as amended: fetchWithParse attempts a JSON parse exactly when
the declared content type contains the substring application/json or the
raw body text starts with a brace or a bracket, and the body is non-empty;
when the parse fails, or when the content-type/leading-character condition
does not hold, the raw body text is returned unchanged; when that condition
holds but the body is empty, the body becomes null without a parse. -/
theorem fetchBody_spec (parseJson : String → Option Json) (ct s : String) :
    (attemptsJsonParse ct s = true →
      (∀ j, parseJson s = some j → fetchBody parseJson ct s = .parsed j) ∧
        (parseJson s = none → fetchBody parseJson ct s = .raw s)) ∧
      (fetchParseCond ct s = true → s = "" → fetchBody parseJson ct s = .nullBody) ∧
      (fetchParseCond ct s = false → fetchBody parseJson ct s = .raw s) := by
  refine ⟨?_, ?_, ?_⟩
  · intro ha
    unfold attemptsJsonParse at ha
    simp only [Bool.and_eq_true, bne_iff_ne, ne_eq] at ha
    obtain ⟨hc, hs⟩ := ha
    constructor
    · intro j hj
      unfold fetchBody
      rw [hc, if_pos rfl, if_neg hs, hj]
    · intro hj
      unfold fetchBody
      rw [hc, if_pos rfl, if_neg hs, hj]
  · intro hc hs
    unfold fetchBody
    rw [hc, if_pos rfl, if_pos hs]
  · intro hc
    unfold fetchBody
    rw [hc]
    simp

/-- Witness for the amended C4 theorem: a parse attempt on a JSON body. -/
theorem fetchBody_spec_witness :
    fetchBody (fun _ => some (.arr [])) "application/json" "[]" = .parsed (.arr []) :=
  ((fetchBody_spec (fun _ => some (.arr [])) "application/json" "[]").1
    (by decide)).1 (.arr []) rfl

/-! ### Hex round-trip lemmas for claims C5 and C9 -/

/-- String.toList inverts String.mk. -/
theorem toList_mk (l : List Char) : (String.mk l).toList = l := rfl

/-- Appending strings appends their character lists. -/
theorem string_mk_append (l1 l2 : List Char) :
    String.mk l1 ++ String.mk l2 = String.mk (l1 ++ l2) := rfl

/-- hexVal? inverts hexDigitU below 16. -/
theorem hexVal_hexDigitU (n : Nat) (h : n < 16) : hexVal? (hexDigitU n) = some n := by
  have hfin : ∀ m : Fin 16, hexVal? (hexDigitU m.val) = some m.val := by decide
  exact hfin ⟨n, h⟩

/-- Hex-decoding inverts the upper-case hex rendering of any byte list. -/
theorem hexDecodeChars_roundtrip (bs : List Nat) (hb : ∀ b ∈ bs, b < 256) :
    hexDecodeChars ((bs.map byteHexU).flatten) = some bs := by
  induction bs with
  | nil => rfl
  | cons b rest ih =>
    have hblt : b < 256 := hb b (List.mem_cons_self b rest)
    have hrest : ∀ x ∈ rest, x < 256 := fun x hx => hb x (List.mem_cons_of_mem b hx)
    show hexDecodeChars
      (hexDigitU (b / 16) :: hexDigitU (b % 16) :: (rest.map byteHexU).flatten) = _
    unfold hexDecodeChars
    rw [hexVal_hexDigitU (b / 16) (by omega), hexVal_hexDigitU (b % 16) (by omega),
      ih hrest]
    have hbe : 16 * (b / 16) + b % 16 = b := by omega
    simp [hbe]

/-- Hex-decoding inverts bytesToHexU. -/
theorem hexDecode_bytesToHexU (bs : List Nat) (hb : ∀ b ∈ bs, b < 256) :
    hexDecode (bytesToHexU bs) = some bs := by
  unfold hexDecode bytesToHexU
  rw [toList_mk]
  exact hexDecodeChars_roundtrip bs hb

/-- The 34 zero digits are the hex rendering of 17 zero bytes. -/
theorem zeros34_eq : zeros34 = bytesToHexU (List.replicate 17 0) := by decide

/-- Every ascii-masked byte is below 256. -/
theorem asciiBytes_lt256 (s : String) : ∀ b ∈ asciiBytes s, b < 256 := by
  intro b hb
  unfold asciiBytes at hb
  obtain ⟨c, _, rfl⟩ := List.mem_map.mp hb
  have : c.toNat % 128 < 128 := Nat.mod_lt _ (by omega)
  omega

/-- Every UTF-8 byte is below 256. -/
theorem utf8Enc_lt256 (n : Nat) : ∀ b ∈ utf8Enc n, b < 256 := by
  intro b hb
  unfold utf8Enc at hb
  split at hb
  · simp at hb
    omega
  · split at hb
    · simp at hb
      rcases hb with rfl | rfl <;> omega
    · split at hb
      · simp at hb
        rcases hb with rfl | rfl | rfl <;> omega
      · simp at hb
        rcases hb with rfl | rfl | rfl | rfl <;> omega

/-- Every byte of a UTF-8 encoded string is below 256. -/
theorem utf8Bytes_lt256 (s : String) : ∀ b ∈ utf8Bytes s, b < 256 := by
  intro b hb
  unfold utf8Bytes at hb
  obtain ⟨l, hl, hbl⟩ := List.mem_flatten.mp hb
  obtain ⟨c, _, rfl⟩ := List.mem_map.mp hl
  exact utf8Enc_lt256 c.toNat b hbl

/-- Bytes of a zero-padded byte list stay below 256. -/
theorem padded_lt256 (bs : List Nat) (hb : ∀ b ∈ bs, b < 256) (n : Nat) :
    ∀ b ∈ bs ++ List.replicate n 0, b < 256 := by
  intro b hmem
  rcases List.mem_append.mp hmem with h | h
  · exact hb b h
  · have := List.eq_of_mem_replicate h
    omega

/-- An exactly-3-alphanumeric string is not a 40-digit hex string. -/
theorem alnum3_not_hex40 (s : String) (h : isAlnum3 s = true) : isHex40 s = false := by
  unfold isAlnum3 at h
  unfold isHex40
  cases hs : s.toList with
  | nil => rw [hs] at h; simp at h
  | cons c1 rest =>
    rw [hs] at h
    match rest, h with
    | [c2, c3], _ => rfl

/-! ### Claim C5: the canonical token key round-trip -/

/-- Claim C5 counterexample: the claim asserts the canonical key's currency
segment hex-decodes back to the original 3 characters for every exactly-3
alphanumeric input.  The source upper-cases the code before encoding, so
for the input usd the segment decodes to the bytes of USD, not usd: the
original characters are not recovered. -/
theorem tokenKey_lowercase_counterexample :
    currencyTo160Hex "usd" = some "5553440000000000000000000000000000000000" ∧
      hexDecode "5553440000000000000000000000000000000000" =
        some (utf8Bytes "USD" ++ List.replicate 17 0) ∧
      hexDecode "5553440000000000000000000000000000000000" ≠
        some (utf8Bytes "usd" ++ List.replicate 17 0) := by
  refine ⟨by decide, by decide, by decide⟩

/-- Claim C5 as amended: tokenKey is deterministic (immediate, since the
embedding is a function of its inputs), and the currency segment of the
canonical key hex-decodes to the trimmed input's UTF-8 bytes followed by
zero padding for every accepted input of the arbitrary-string branch, and
to the bytes of the upper-cased code followed by zero padding for every
exactly-3-alphanumeric input — hence it recovers the original 3 characters
exactly when the code contains no lowercase letter. -/
theorem currencySegment_roundtrip (c : String) :
    (isAlnum3 (jsTrim c) = true →
      currencyTo160Hex c =
          some (bytesToHexU (asciiBytes (jsToUpper (jsTrim c))) ++ zeros34) ∧
        hexDecode (bytesToHexU (asciiBytes (jsToUpper (jsTrim c))) ++ zeros34) =
          some (asciiBytes (jsToUpper (jsTrim c)) ++ List.replicate 17 0)) ∧
      (isHex40 (jsTrim c) = false → isAlnum3 (jsTrim c) = false →
        (utf8Bytes (jsTrim c)).length ≤ 20 →
        currencyTo160Hex c =
            some (bytesToHexU (utf8Bytes (jsTrim c) ++
              List.replicate (20 - (utf8Bytes (jsTrim c)).length) 0)) ∧
          hexDecode (bytesToHexU (utf8Bytes (jsTrim c) ++
              List.replicate (20 - (utf8Bytes (jsTrim c)).length) 0)) =
            some (utf8Bytes (jsTrim c) ++
              List.replicate (20 - (utf8Bytes (jsTrim c)).length) 0)) := by
  constructor
  · intro h3
    have h40 : isHex40 (jsTrim c) = false := alnum3_not_hex40 _ h3
    constructor
    · simp [currencyTo160Hex, h40, h3]
    · rw [zeros34_eq]
      unfold bytesToHexU
      rw [string_mk_append, ← List.flatten_append, ← List.map_append]
      show hexDecode (bytesToHexU _) = _
      exact hexDecode_bytesToHexU _
        (padded_lt256 _ (asciiBytes_lt256 (jsToUpper (jsTrim c))) 17)
  · intro h40 h3 hlen
    constructor
    · have hlen2 : ¬((utf8Bytes (jsTrim c)).length > 20) := by omega
      simp [currencyTo160Hex, h40, h3, hlen2]
    · exact hexDecode_bytesToHexU _
        (padded_lt256 _ (utf8Bytes_lt256 (jsTrim c)) _)

/-- Witness for the amended C5 theorem: the ISO branch at FOO and the
arbitrary branch at the four-character input DOGE. -/
theorem currencySegment_roundtrip_witness :
    (currencyTo160Hex "FOO" =
        some (bytesToHexU (asciiBytes (jsToUpper (jsTrim "FOO"))) ++ zeros34) ∧
      hexDecode (bytesToHexU (asciiBytes (jsToUpper (jsTrim "FOO"))) ++ zeros34) =
        some (asciiBytes (jsToUpper (jsTrim "FOO")) ++ List.replicate 17 0)) ∧
      (currencyTo160Hex "DOGE" =
          some (bytesToHexU (utf8Bytes (jsTrim "DOGE") ++
            List.replicate (20 - (utf8Bytes (jsTrim "DOGE")).length) 0)) ∧
        hexDecode (bytesToHexU (utf8Bytes (jsTrim "DOGE") ++
            List.replicate (20 - (utf8Bytes (jsTrim "DOGE")).length) 0)) =
          some (utf8Bytes (jsTrim "DOGE") ++
            List.replicate (20 - (utf8Bytes (jsTrim "DOGE")).length) 0)) :=
  ⟨(currencySegment_roundtrip "FOO").1 (by decide),
    (currencySegment_roundtrip "DOGE").2 (by decide) (by decide) (by decide)⟩

/-! ### Claim C9: case-insensitivity of the normalizer on ISO codes -/

/-- jsToUpper is idempotent on strings of alphanumeric characters. -/
theorem jsToUpper_idem_of_alnum (s : String)
    (h : ∀ ch ∈ s.toList, isAlnumChar ch = true) :
    jsToUpper (jsToUpper s) = jsToUpper s := by
  unfold jsToUpper
  rw [toList_mk, List.map_map]
  congr 1
  apply List.map_congr_left
  intro ch hch
  exact toUpper_idem ch (h ch hch)

/-- jsToUpper preserves the isAlnum3 shape. -/
theorem isAlnum3_jsToUpper (s : String) (h : isAlnum3 s = true) :
    isAlnum3 (jsToUpper s) = true := by
  unfold isAlnum3 at h ⊢
  unfold jsToUpper
  rw [toList_mk]
  cases hs : s.toList with
  | nil => rw [hs] at h; simp at h
  | cons c1 rest =>
    rw [hs] at h
    match rest, h with
    | [c2, c3], h =>
      simp only [Bool.and_eq_true] at h
      obtain ⟨⟨h1, h2⟩, h3⟩ := h
      simp [toUpper_alnum c1 h1, toUpper_alnum c2 h2, toUpper_alnum c3 h3]

/-- Claim C9: on an exactly-3-alphanumeric currency code the normalizer
encodes the upper-cased code zero-padded to 40 digits, and is therefore
case-insensitive: the code and its upper-cased form normalize to the same
segment, so tokenKey agrees on them as well. -/
theorem currencyTo160Hex_upper (c : String) (h : isAlnum3 c = true) :
    currencyTo160Hex c = some (bytesToHexU (asciiBytes (jsToUpper c)) ++ zeros34) ∧
      currencyTo160Hex c = currencyTo160Hex (jsToUpper c) ∧
      ∀ issuer, tokenIdFromIssuerCurrency issuer c =
        tokenIdFromIssuerCurrency issuer (jsToUpper c) := by
  have halls : ∀ ch ∈ c.toList, isAlnumChar ch = true := by
    intro ch hch
    unfold isAlnum3 at h
    cases hs : c.toList with
    | nil => rw [hs] at h; simp at h
    | cons c1 rest =>
      rw [hs] at h
      rw [hs] at hch
      match rest, h, hch with
      | [c2, c3], h, hch =>
        simp only [Bool.and_eq_true] at h
        obtain ⟨⟨h1, h2⟩, h3⟩ := h
        simp at hch
        rcases hch with rfl | rfl | rfl
        · exact h1
        · exact h2
        · exact h3
  have htrim : jsTrim c = c := jsTrim_alnum3 c h
  have h40 : isHex40 c = false := alnum3_not_hex40 c h
  have hu3 : isAlnum3 (jsToUpper c) = true := isAlnum3_jsToUpper c h
  have hutrim : jsTrim (jsToUpper c) = jsToUpper c := jsTrim_alnum3 _ hu3
  have hu40 : isHex40 (jsToUpper c) = false := alnum3_not_hex40 _ hu3
  have hself : currencyTo160Hex c =
      some (bytesToHexU (asciiBytes (jsToUpper c)) ++ zeros34) := by
    simp [currencyTo160Hex, htrim, h40, h]
  have hupper : currencyTo160Hex (jsToUpper c) =
      some (bytesToHexU (asciiBytes (jsToUpper c)) ++ zeros34) := by
    simp [currencyTo160Hex, hutrim, hu40, hu3, jsToUpper_idem_of_alnum c halls]
  refine ⟨hself, hself.trans hupper.symm, ?_⟩
  intro issuer
  unfold tokenIdFromIssuerCurrency
  rw [hself, hupper]

/-- Witness for the C9 theorem at the lowercase code abc. -/
theorem currencyTo160Hex_upper_witness :
    currencyTo160Hex "abc" = currencyTo160Hex (jsToUpper "abc") :=
  ((currencyTo160Hex_upper "abc" (by decide)).2).1

/-! ### Claim C6: the market_snapshot VWAP guard -/

/-- Claim C6: the VWAP of a trade sample is absent (null, never NaN and
never a division fault) when the sample is empty or its amounts sum to
zero, and equals the sum of price times amount divided by the sum of
amount whenever the amount sum is strictly positive. -/
theorem vwap_spec (trades : List Json) :
    (trades = [] → vwapOf trades = .nullJ) ∧
      (vwapDenominator trades = some 0 → vwapOf trades = .nullJ) ∧
      (∀ d n, vwapDenominator trades = some d → 0 < d →
        vwapNumerator trades = some n → vwapOf trades = .numJ (n / d)) := by
  refine ⟨?_, ?_, ?_⟩
  · rintro rfl
    simp [vwapOf, vwapDenominator, vwapNumerator]
  · intro h
    unfold vwapOf
    rw [h]
    simp
  · intro d n hd hpos hn
    unfold vwapOf
    rw [hd]
    simp [hpos, hn]

/-- Witness for the C6 theorem on a one-trade sample with price 2 and
amount 3. -/
theorem vwap_spec_witness :
    vwapOf [.obj [("price", .num 2), ("amount", .num 3)]] = .numJ (6 / 3) :=
  (vwap_spec [.obj [("price", .num 2), ("amount", .num 3)]]).2.2 3 6
    (by simp [vwapDenominator, coerceNumField, Json.get, lookupField, jsTruthy,
      jsToNum, nanAdd])
    (by norm_num)
    (by simp [vwapNumerator, coerceNumField, Json.get, lookupField, jsTruthy,
      jsToNum, nanAdd, nanMul]
        norm_num)

/-! ### Claim C8: the account_overview risk indicators -/

/-- Claim C8: the three risk indicators fire independently — the
trustline flag exactly when the trustline count exceeds 250, the owner
flag exactly when the owner count exceeds 1000, the flags flag exactly
when the account flags are non-zero — and the emitted list is always a
sublist of the fixed order trustline, owner count, flags (so any fired
subset, including all three, appears in that order). -/
theorem riskIndicators_spec (tc : Nat) (oc fl : ℚ) :
    (riskTrustlineMsg ∈ riskIndicators tc (some oc) (some fl) ↔ 250 < tc) ∧
      (riskOwnerMsg ∈ riskIndicators tc (some oc) (some fl) ↔ 1000 < oc) ∧
      (riskFlagsMsg ∈ riskIndicators tc (some oc) (some fl) ↔ fl ≠ 0) ∧
      List.Sublist (riskIndicators tc (some oc) (some fl))
        [riskTrustlineMsg, riskOwnerMsg, riskFlagsMsg] := by
  have hd1 : riskTrustlineMsg ≠ riskOwnerMsg := by decide
  have hd2 : riskTrustlineMsg ≠ riskFlagsMsg := by decide
  have hd3 : riskOwnerMsg ≠ riskFlagsMsg := by decide
  unfold riskIndicators
  by_cases h1 : 250 < tc <;> by_cases h2 : (1000 : ℚ) < oc <;> by_cases h3 : fl ≠ 0 <;>
    simp [h1, h2, h3, hd1, hd2, hd3, hd1.symm, hd2.symm, hd3.symm]

/-! ### Claim C10: recentCounterparties never lists the queried account -/

/-- bumpKeyJ preserves a property of the map keys when the inserted key
has it. -/
theorem bumpKeyJ_keys {P : Json → Prop} (m : List (Json × Nat)) (k : Json)
    (hm : ∀ p ∈ m, P p.1) (hk : P k) : ∀ p ∈ bumpKeyJ m k, P p.1 := by
  induction m with
  | nil =>
    intro p hp
    simp [bumpKeyJ] at hp
    rw [hp]
    exact hk
  | cons q rest ih =>
    obtain ⟨k0, n⟩ := q
    intro p hp
    unfold bumpKeyJ at hp
    by_cases he : jsonBeq k0 k = true
    · simp [he] at hp
      rcases hp with rfl | hp
      · exact hm (k0, n) (List.mem_cons_self _ _)
      · exact hm p (List.mem_cons_of_mem _ hp)
    · simp [he] at hp
      rcases hp with rfl | hp
      · exact hm (k0, n) (List.mem_cons_self _ _)
      · exact ih (fun q hq => hm q (List.mem_cons_of_mem _ hq)) p hp

/-- Every key accumulated by the counterparty loop differs from the
queried account. -/
theorem counterpartiesMap_keys (account : String) (txs : List Json) :
    ∀ p ∈ counterpartiesMap account txs, jsonBeq p.1 (.str account) = false := by
  unfold counterpartiesMap
  suffices h : ∀ (l : List Json) (m : List (Json × Nat)),
      (∀ p ∈ m, jsonBeq p.1 (.str account) = false) →
      ∀ p ∈ l.foldl (cpStep account) m, jsonBeq p.1 (.str account) = false by
    exact h txs [] (by intro p hp; cases hp)
  intro l
  induction l with
  | nil => intro m hm p hp; exact hm p hp
  | cons row rest ih =>
    intro m hm p hp
    rw [List.foldl_cons] at hp
    refine ih (cpStep account m row) ?_ p hp
    unfold cpStep
    split
    · split
      · rename_i cp hcp hc
        have hne : jsonBeq cp (.str account) = false := by
          rw [Bool.and_eq_true] at hc
          simpa using hc.2
        exact @bumpKeyJ_keys (fun a => jsonBeq a (Json.str account) = false) m cp hm hne
      · exact hm
    · exact hm

/-- Membership after a descending insertion came from the inserted element
or the original list. -/
theorem mem_insertDescBy {α : Type} (gt : α → α → Bool) (e x : α) (l : List α)
    (hx : x ∈ insertDescBy gt e l) : x = e ∨ x ∈ l := by
  induction l with
  | nil =>
    simp [insertDescBy] at hx
    exact Or.inl hx
  | cons f rest ih =>
    unfold insertDescBy at hx
    by_cases hg : gt e f = true
    · rw [if_pos hg] at hx
      rcases List.mem_cons.mp hx with h | h
      · exact Or.inl h
      · exact Or.inr h
    · rw [if_neg hg] at hx
      rcases List.mem_cons.mp hx with h | h
      · exact Or.inr (h ▸ List.mem_cons_self _ _)
      · rcases ih h with h2 | h2
        · exact Or.inl h2
        · exact Or.inr (List.mem_cons_of_mem _ h2)

/-- The engine sort does not invent elements. -/
theorem mem_sortDescBy {α : Type} (gt : α → α → Bool) (l : List α) :
    ∀ x ∈ sortDescBy gt l, x ∈ l := by
  unfold sortDescBy
  induction l with
  | nil => simp
  | cons a rest ih =>
    intro x hx
    rw [List.foldr_cons] at hx
    rcases mem_insertDescBy gt a x _ hx with rfl | hx2
    · exact List.mem_cons_self _ _
    · exact List.mem_cons_of_mem _ (ih x hx2)

/-- Claim C10: every entry of recentCounterparties is an
address/interactions record whose address differs from the queried
account — a row whose counterparty equals the account is skipped by the
counting loop, so the account itself never appears. -/
theorem recentCounterparties_excludes_self (account : String) (txs : List Json) :
    ∀ j ∈ recentCounterparties account txs,
      ∃ a c, j = Json.obj [("address", a), ("interactions", .num c)] ∧
        jsonBeq a (.str account) = false := by
  intro j hj
  unfold recentCounterparties at hj
  obtain ⟨e, he, rfl⟩ := List.mem_map.mp hj
  have he2 := List.take_subset 10 _ he
  have he3 := mem_sortDescBy _ _ e he2
  exact ⟨e.1, e.2, rfl, counterpartiesMap_keys account txs e he3⟩

/-- Witness for the C10 theorem: a single payment row to rB queried from
rA yields the single counterparty rB, which differs from rA. -/
theorem recentCounterparties_excludes_self_witness :
    ∃ a c,
      Json.obj [("address", Json.str "rB"), ("interactions", Json.num ((1 : Nat) : ℚ))] =
          Json.obj [("address", a), ("interactions", .num c)] ∧
        jsonBeq a (.str "rA") = false := by
  have hmem :
      Json.obj [("address", Json.str "rB"), ("interactions", Json.num ((1 : Nat) : ℚ))] ∈
        recentCounterparties "rA"
          [.obj [("tx_json", .obj [("Destination", .str "rB")])]] := by
    have heq : recentCounterparties "rA"
        [.obj [("tx_json", .obj [("Destination", .str "rB")])]] =
        [Json.obj [("address", Json.str "rB"), ("interactions", Json.num ((1 : Nat) : ℚ))]] :=
      rfl
    rw [heq]
    exact List.mem_singleton_self _
  exact recentCounterparties_excludes_self "rA" _ _ hmem

/-! ### Claim C7: resolve_entities classification -/

/-- Claim C7: resolve_entities classifies its trimmed input by the first
matching pattern in the fixed order — 64 hex digits (value upper-cased),
address, token id, digits-only (value converted to a number), string with
a period — each with its fixed hard-coded follow-up tool list; when no
pattern matches, the entity is unknown, the suggestion list is empty and
the envelope carries a warning. -/
theorem resolveEntity_spec (input : String) :
    (isHex64 (jsTrim input) = true →
      resolveEntity input =
        ⟨"tx_hash", .str (jsToUpper (jsTrim input)), ["tx_explain", "xrpl_tx"]⟩) ∧
      (isHex64 (jsTrim input) = false → isAccountStr (jsTrim input) = true →
        resolveEntity input =
          ⟨"account", .str (jsTrim input), ["account_overview", "xrpl_account_info"]⟩) ∧
      (isHex64 (jsTrim input) = false → isAccountStr (jsTrim input) = false →
        isTokenIdStr (jsTrim input) = true →
        resolveEntity input =
          ⟨"token_id", .str (jsToUpper (jsTrim input)), ["token_overview", "los_get_token"]⟩) ∧
      (isHex64 (jsTrim input) = false → isAccountStr (jsTrim input) = false →
        isTokenIdStr (jsTrim input) = false → isDigitsOnly (jsTrim input) = true →
        resolveEntity input =
          ⟨"ledger_index", .num (decVal (jsTrim input).toList),
            ["ledger_summary", "xrpl_ledger"]⟩) ∧
      (isHex64 (jsTrim input) = false → isAccountStr (jsTrim input) = false →
        isTokenIdStr (jsTrim input) = false → isDigitsOnly (jsTrim input) = false →
        hasPeriod (jsTrim input) = true →
        resolveEntity input =
          ⟨"domain_or_host", .str (jsToLower (jsTrim input)),
            ["xrplmeta_get", "validator_set_overview"]⟩) ∧
      (isHex64 (jsTrim input) = false → isAccountStr (jsTrim input) = false →
        isTokenIdStr (jsTrim input) = false → isDigitsOnly (jsTrim input) = false →
        hasPeriod (jsTrim input) = false →
        resolveEntity input = ⟨"unknown", .str (jsTrim input), []⟩) ∧
      (∀ now, ∃ e, resolveEntitiesHandler now input = .ok e ∧
        e.warnings =
          (if (resolveEntity input).entityType = "unknown" then [unknownEntityWarning]
            else [])) := by
  refine ⟨?_, ?_, ?_, ?_, ?_, ?_, ?_⟩
  · intro h1
    simp [resolveEntity, h1]
  · intro h1 h2
    simp [resolveEntity, h1, h2]
  · intro h1 h2 h3
    simp [resolveEntity, h1, h2, h3]
  · intro h1 h2 h3 h4
    simp [resolveEntity, h1, h2, h3, h4]
  · intro h1 h2 h3 h4 h5
    simp [resolveEntity, h1, h2, h3, h4, h5]
  · intro h1 h2 h3 h4 h5
    simp [resolveEntity, h1, h2, h3, h4, h5]
  · intro now
    exact ⟨_, rfl, rfl⟩

/-- Witness for the C7 theorem: a string of 64 nines is classified as a
transaction hash with its fixed suggestions. -/
theorem resolveEntity_spec_witness :
    resolveEntity "9999999999999999999999999999999999999999999999999999999999999999" =
      ⟨"tx_hash",
        .str (jsToUpper (jsTrim
          "9999999999999999999999999999999999999999999999999999999999999999")),
        ["tx_explain", "xrpl_tx"]⟩ :=
  (resolveEntity_spec
    "9999999999999999999999999999999999999999999999999999999999999999").1 (by decide)

/-! ### Claim C1: composite handlers yield one envelope or one error -/

/-- Claim C1: every composite handler, over every behaviour of its
upstream calls, returns exactly one outcome — an envelope or an error
(the ToolOutcome codomain makes the exclusivity structural) — and a
failing mandatory call makes the outcome the error carrying that call's
message, with everything gathered before it (tryLos enrichments, inline
caught amm lookups, the freshness probe) discarded rather than wrapped in
a partial envelope; when every mandatory call succeeds the outcome is an
envelope.  token_overview additionally errors on an unnormalizable
currency before any call, and resolve_entities, which has no upstream
calls, always produces an envelope. -/
theorem compositeOutcome_spec :
    (∀ now si pr,
      (∀ m, si = .error m → networkOverview now si pr = .err m) ∧
        (∀ j, si = .ok j → ∃ e, networkOverview now si pr = .ok e)) ∧
      (∀ now lh lc li lhh,
        (∀ m, lc = .error m → ledgerSummary now lh lc li lhh = .err m) ∧
          (∀ j, lc = .ok j → ∃ e, ledgerSummary now lh lc li lhh = .ok e)) ∧
      (∀ now th lr tc,
        (∀ m, tc = Except.error m → txExplain now th lr tc = .err m) ∧
          (∀ j, tc = .ok j → ∃ e, txExplain now th lr tc = .ok e)) ∧
      (∀ now acct ic lc tc,
        (∀ m, ic = .error m → accountOverview now acct ic lc tc = .err m) ∧
          (∀ j m, ic = .ok j → lc = .error m → accountOverview now acct ic lc tc = .err m) ∧
          (∀ j k m, ic = .ok j → lc = .ok k → tc = .error m →
            accountOverview now acct ic lc tc = .err m) ∧
          (∀ j k l2, ic = .ok j → lc = .ok k → tc = .ok l2 →
            ∃ e, accountOverview now acct ic lc tc = .ok e)) ∧
      (∀ now iss cur tm tt bc ac,
        (tokenIdFromIssuerCurrency iss cur = none →
          tokenOverview now iss cur tm tt bc ac = .err tokenNormalizeError) ∧
          (∀ tid m, tokenIdFromIssuerCurrency iss cur = some tid → bc = .error m →
            tokenOverview now iss cur tm tt bc ac = .err m) ∧
          (∀ tid j, tokenIdFromIssuerCurrency iss cur = some tid → bc = .ok j →
            ∃ e, tokenOverview now iss cur tm tt bc ac = .ok e)) ∧
      (∀ now opts bc ac ltr,
        (∀ m, bc = .error m → marketSnapshot now opts bc ac ltr = .err m) ∧
          (∀ j, bc = .ok j → ∃ e, marketSnapshot now opts bc ac ltr = .ok e)) ∧
      (∀ now ac ls,
        (∀ m, ac = .error m → ammOverview now ac ls = .err m) ∧
          (∀ j, ac = .ok j → ∃ e, ammOverview now ac ls = .ok e)) ∧
      (∀ now vc,
        (∀ m, vc = .error m → validatorSetOverview now vc = .err m) ∧
          (∀ j, vc = .ok j → ∃ e, validatorSetOverview now vc = .ok e)) ∧
      (∀ now w vc rc,
        (∀ m, vc = .error m → validatorHealth now w vc rc = .err m) ∧
          (∀ j m, vc = .ok j → rc = .error m → validatorHealth now w vc rc = .err m) ∧
          (∀ j k, vc = .ok j → rc = .ok k → ∃ e, validatorHealth now w vc rc = .ok e)) ∧
      (∀ now net vhc vtc sc,
        (∀ m, vhc = .error m → amendmentStatus now net vhc vtc sc = .err m) ∧
          (∀ j m, vhc = .ok j → netGiven net = true → vtc = .error m →
            amendmentStatus now net vhc vtc sc = .err m) ∧
          (∀ j m, vhc = .ok j → netGiven net = false → sc = .error m →
            amendmentStatus now net vhc vtc sc = .err m) ∧
          (∀ j k m, vhc = .ok j → netGiven net = true → vtc = .ok k → sc = .error m →
            amendmentStatus now net vhc vtc sc = .err m) ∧
          (∀ j k, vhc = .ok j → netGiven net = false → sc = .ok k →
            ∃ e, amendmentStatus now net vhc vtc sc = .ok e) ∧
          (∀ j k l2, vhc = .ok j → netGiven net = true → vtc = .ok k → sc = .ok l2 →
            ∃ e, amendmentStatus now net vhc vtc sc = .ok e)) ∧
      (∀ now lc,
        (∀ m, lc = .error m → searchTransactions now lc = .err m) ∧
          (∀ j, lc = .ok j → ∃ e, searchTransactions now lc = .ok e)) ∧
      (∀ now inp, ∃ e, resolveEntitiesHandler now inp = .ok e) := by
  refine ⟨?_, ?_, ?_, ?_, ?_, ?_, ?_, ?_, ?_, ?_, ?_, ?_⟩
  · intro now si pr
    exact ⟨fun m h => by subst h; rfl, fun j h => by subst h; exact ⟨_, rfl⟩⟩
  · intro now lh lc li lhh
    exact ⟨fun m h => by subst h; rfl, fun j h => by subst h; exact ⟨_, rfl⟩⟩
  · intro now th lr tc
    exact ⟨fun m h => by subst h; rfl, fun j h => by subst h; exact ⟨_, rfl⟩⟩
  · intro now acct ic lc tc
    refine ⟨fun m h => by subst h; rfl, ?_, ?_, ?_⟩
    · intro j m h1 h2
      subst h1; subst h2; rfl
    · intro j k m h1 h2 h3
      subst h1; subst h2; subst h3; rfl
    · intro j k l2 h1 h2 h3
      subst h1; subst h2; subst h3; exact ⟨_, rfl⟩
  · intro now iss cur tm tt bc ac
    refine ⟨?_, ?_, ?_⟩
    · intro h
      unfold tokenOverview
      rw [h]
    · intro tid m h1 h2
      subst h2
      unfold tokenOverview
      rw [h1]
    · intro tid j h1 h2
      subst h2
      unfold tokenOverview
      rw [h1]
      exact ⟨_, rfl⟩
  · intro now opts bc ac ltr
    exact ⟨fun m h => by subst h; rfl, fun j h => by subst h; exact ⟨_, rfl⟩⟩
  · intro now ac ls
    exact ⟨fun m h => by subst h; rfl, fun j h => by subst h; exact ⟨_, rfl⟩⟩
  · intro now vc
    exact ⟨fun m h => by subst h; rfl, fun j h => by subst h; exact ⟨_, rfl⟩⟩
  · intro now w vc rc
    refine ⟨fun m h => by subst h; rfl, ?_, ?_⟩
    · intro j m h1 h2
      subst h1; subst h2; rfl
    · intro j k h1 h2
      subst h1; subst h2; exact ⟨_, rfl⟩
  · intro now net vhc vtc sc
    refine ⟨fun m h => by subst h; rfl, ?_, ?_, ?_, ?_, ?_⟩
    · intro j m h1 hng h2
      subst h1; subst h2
      simp only [amendmentStatus, hng]
      rfl
    · intro j m h1 hng h2
      subst h1; subst h2
      simp only [amendmentStatus, hng]
      rfl
    · intro j k m h1 hng h2 h3
      subst h1; subst h2; subst h3
      simp only [amendmentStatus, hng]
      rfl
    · intro j k h1 hng h2
      subst h1; subst h2
      simp only [amendmentStatus, hng]
      exact ⟨_, rfl⟩
    · intro j k l2 h1 hng h2 h3
      subst h1; subst h2; subst h3
      simp only [amendmentStatus, hng]
      exact ⟨_, rfl⟩
  · intro now lc
    exact ⟨fun m h => by subst h; rfl, fun j h => by subst h; exact ⟨_, rfl⟩⟩
  · intro now inp
    exact ⟨_, rfl⟩

/-- Witness for the C1 theorem: a failing server_info call makes
network_overview return exactly that error; a failing account_lines call
makes account_overview return exactly that error even though account_info
succeeded; resolve_entities yields an envelope. -/
theorem compositeOutcome_spec_witness :
    networkOverview "T" (.error "server_info failed") (fun _ => none) =
        .err "server_info failed" ∧
      accountOverview "T" "rAcc" (.ok .null) (.error "lines failed") (.ok .null) =
        .err "lines failed" ∧
      ∃ e, resolveEntitiesHandler "T" "hello" = .ok e := by
  refine ⟨?_, ?_, ?_⟩
  · exact (compositeOutcome_spec.1 "T" (.error "server_info failed")
      (fun _ => none)).1 "server_info failed" rfl
  · exact ((compositeOutcome_spec.2.2.2.1 "T" "rAcc" (.ok .null)
      (.error "lines failed") (.ok .null)).2.1) .null "lines failed" rfl rfl
  · exact compositeOutcome_spec.2.2.2.2.2.2.2.2.2.2.2 "T" "hello"

end XrplMcp
